import Mathlib

/-!
Verification of the natural-language specification of
`src/mol-plugin-state/builder/structure.ts` (the `StructureBuilder` class of
the hadim/molstar repository).

The source file under `src/` is the authority for the builder pipeline
functions (`parseTrajectory`, `createModel`, `createStructure`,
`tryCreateUnitcell`, `tryCreateComponent`, ...).  The generic state engine
they run on (node store, transaction builder, commit engine with
`revertOnError`, pruning, task runner) lives in parts of the repository that
are not included under `src/`; those parts are modelled here from the
specification (sections 3-6 of the spec), each such definition marked
`Modelled from the spec:` in its doc comment.
-/

namespace Molstar

/-- Lifecycle of a node, per the spec data model: Pending, Applying, Ok, Errored. -/
inductive Lifecycle
  | pending
  | applying
  | ok
  | errored
deriving DecidableEq, Repr

/-- A spacegroup cell; only the zero-test matters to the builder. -/
structure SpacegroupCell where
  volume : Int
deriving DecidableEq, Repr

/-- Symmetry data attached to a model payload: a spacegroup cell and a list of assembly ids. -/
structure Symmetry where
  cell : SpacegroupCell
  assemblies : List String
deriving DecidableEq, Repr

/-- Domain payloads of graph nodes (the `data` of a state object).  The builder
only inspects: the data kind (binary, string or blob) for dispatch, a model
payload for its symmetry, and a structure payload for its `elementCount`. -/
inductive Payload
  | binary
  | strData
  | blob
  | trajectory
  | model (symmetry : Option Symmetry)
  | molStructure (elementCount : Nat)
  | unitcellRepr
deriving DecidableEq, Repr

/-- The `type` field of `StructureComponentParams`: an expression, a static
component kind, or an element bundle (expressions and bundles are opaque to
the builder and modelled as numbers). -/
inductive ComponentTypeSel
  | expression (params : Nat)
  | staticT (params : String)
  | bundle (params : Nat)
deriving DecidableEq, Repr

/-- `StructureComponentParams` as used by the builder. -/
structure StructureComponentParams where
  type : ComponentTypeSel
  nullIfEmpty : Bool
  label : String
deriving DecidableEq, Repr

/-- A `RootStructureDefinition.Params` value: a `name` kind and an opaque
parameter bag (`[]` models the empty object). -/
structure RootStructureDef where
  name : String
  p : List Nat
deriving DecidableEq, Repr

/-- Transformer kinds applied by the builder. -/
inductive Transformer
  | ParseBlob
  | TrajectoryFromBlob
  | ModelFromTrajectory
  | CustomModelProperties
  | ModelUnitcell3D
  | StructureFromModel
  | CustomStructureProperties
  | StructureComponent
deriving DecidableEq, Repr

/-- Transformer parameters.  `undef` models passing `undefined` (`void 0` or an
omitted optional argument); the remaining constructors carry the concrete
parameter shapes the builder constructs, with opaque parts as numbers. -/
inductive Params
  | undef
  | blobParams (p : Nat)
  | modelFromTrajectory (modelIndex : Nat)
  | customProps (p : Nat)
  | unitcell (p : Nat)
  | structureFromModel (type : RootStructureDef)
  | structureComponent (p : StructureComponentParams)
deriving DecidableEq, Repr

/-- Modelled from the spec: a graph node of the Node Store (spec section 3),
with transformer kind, params, tags, parent reference, lifecycle, payload
(present only when the lifecycle is Ok) and the `isGhost` display hint. -/
structure Node where
  ref : Nat
  parent : Nat
  transformer : Transformer
  params : Params
  tags : List String
  lifecycle : Lifecycle
  payload : Option Payload
  isGhost : Bool
deriving DecidableEq, Repr

/-- Modelled from the spec: the Node Store — all nodes keyed by stable
references, plus the next fresh reference (references are never reused). -/
structure Store where
  nodes : List Node
  nextRef : Nat
deriving DecidableEq, Repr

/-- Result of a fallible step (models a promise that either resolves or rejects). -/
inductive Res (α : Type)
  | ok (a : α)
  | err (e : String)
deriving DecidableEq, Repr

/-- Modelled from the spec: a Selector, the per-operation commit result
`\x7b ref, ok \x7d` (the payload is read back through the store). -/
structure Selector where
  ref : Nat
  isOk : Bool
deriving DecidableEq, Repr

/-- Staged operations of a transaction: insert of a new child (with its
pre-assigned fresh reference), in-place param replacement of an existing
node (the update half of a tagged upsert), and subtree deletion. -/
inductive Op
  | applyOp (parent newRef : Nat) (tr : Transformer) (params : Params) (tags : List String) (isGhost : Bool)
  | updateOp (ref : Nat) (params : Params)
  | deleteOp (ref : Nat)
deriving DecidableEq, Repr

/-- Observable events of a builder call: each commit submitted to the engine
(with its `revertOnError` policy flag and its staged operations), and each
suspend point of the selection pipeline with the task context it was given. -/
inductive Event
  | commitEv (revertOnError : Bool) (ops : List Op)
  | getSelectionCall (ctx : Nat)
  | ensurePropsCall (ctx : Nat)
deriving DecidableEq, Repr

/-- Result of one builder step: the store afterwards, the observable events
in order, and the step's value. -/
structure StepResult (α : Type) where
  store : Store
  events : List Event
  value : α
deriving DecidableEq, Repr

/-- Boolean tag membership, mirroring tag lookup on a node's tag list. -/
def hasTag (tags : List String) (t : String) : Bool :=
  tags.any (fun x => x == t)

/-- Look a node up by reference. -/
def Store.resolve (s : Store) (r : Nat) : Option Node :=
  s.nodes.find? (fun n => n.ref == r)

/-- Modelled from the spec: `StateObjectRef.resolveAndCheck` — `resolve(ref) ->
NodeView?`: the node for a reference provided it is a valid cell whose
lifecycle is Ok and whose payload is present; none otherwise. -/
def resolveAndCheck (s : Store) (r : Nat) : Option Node :=
  match s.resolve r with
  | some n => if n.lifecycle = Lifecycle.ok ∧ n.payload.isSome then some n else none
  | none => none

/-- Modelled from the spec: the Transaction Builder — a staged plan of
operations anchored at a reference, reading only the pre-transaction store. -/
structure Builder where
  base : Store
  anchor : Nat
  ops : List Op
  nextRef : Nat
deriving Repr

/-- Modelled from the spec: `begin` — start a transaction on a store (`state.build()`). -/
def Store.build (s : Store) : Builder :=
  { base := s, anchor := 0, ops := [], nextRef := s.nextRef }

/-- Re-anchor the builder at a reference (`.to(ref)`). -/
def Builder.to (b : Builder) (r : Nat) : Builder :=
  { b with anchor := r }

/-- Modelled from the spec: `insert` — stage creation of a new child of the
current anchor and advance the anchor to the new node (`.apply(...)`). -/
def Builder.apply (b : Builder) (tr : Transformer) (params : Params) (tags : List String) (ghost : Bool) : Builder :=
  { b with
    anchor := b.nextRef
    ops := b.ops ++ [Op.applyOp b.anchor b.nextRef tr params tags ghost]
    nextRef := b.nextRef + 1 }

/-- Modelled from the spec: `upsertTagged` (`.applyOrUpdateTagged(...)`) —
if a child of the current anchor carries the tag-key, stage an in-place param
replacement of that child; otherwise stage an insert carrying the given tags. -/
def Builder.applyOrUpdateTagged (b : Builder) (tagKey : String) (tr : Transformer) (params : Params) (tags : List String) : Builder :=
  match b.base.nodes.find? (fun n => n.parent == b.anchor && hasTag n.tags tagKey) with
  | some c => { b with anchor := c.ref, ops := b.ops ++ [Op.updateOp c.ref params] }
  | none => b.apply tr params tags false

/-- Stage deletion of the subtree rooted at a reference (`.delete(ref)`). -/
def Builder.delete (b : Builder) (r : Nat) : Builder :=
  { b with ops := b.ops ++ [Op.deleteOp r] }

/-- The environment of external collaborators: the per-transformer production
function (taking the resolved parent payload), the registered trajectory
format providers, and the selection-to-bundle conversion. -/
structure TrajectoryFormatProvider where
  parse : Store → Nat → StepResult (Res Nat)

structure Env where
  produce : Transformer → Params → Payload → Res Payload
  trajectoryFormatByName : String → Option TrajectoryFormatProvider
  bundleFromSelection : Nat → Nat

/-- One expansion step of the subtree closure: add the refs of all nodes whose
parent is already collected. -/
def expandSub (nodes : List Node) (acc : List Nat) : List Nat :=
  acc ++ (nodes.filter (fun n => acc.contains n.parent && !(acc.contains n.ref))).map (fun n => n.ref)

/-- Fuelled iteration of `expandSub`. -/
def subtreeFuel : Nat → List Node → List Nat → List Nat
  | 0, _, acc => acc
  | k + 1, nodes, acc => subtreeFuel k nodes (expandSub nodes acc)

/-- All references in the subtree rooted at `r` (including `r` itself). -/
def subtreeRefs (nodes : List Node) (r : Nat) : List Nat :=
  subtreeFuel nodes.length nodes [r]

/-- Replace the node with reference `r` by `f` of it, leaving other nodes alone. -/
def replaceNode (nodes : List Node) (r : Nat) (f : Node → Node) : List Node :=
  nodes.map (fun n => if n.ref == r then f n else n)

/-- Modelled from the spec: apply one staged operation to the store (commit
engine, spec section 4.2, step 2): materialize or locate the node, invoke
the production step with the resolved parent payload, set payload and
lifecycle Ok on success or lifecycle Errored on failure; deletion removes
the whole subtree.  A node whose parent has no payload fails without
invoking production. -/
def applyOne (env : Env) (s : Store) : Op → Store × Selector
  | Op.applyOp parent newRef tr params tags ghost =>
    let mk := fun (lc : Lifecycle) (pl : Option Payload) =>
      ({ nodes := s.nodes ++ [{ ref := newRef, parent := parent, transformer := tr, params := params,
                                tags := tags, lifecycle := lc, payload := pl, isGhost := ghost }],
         nextRef := max s.nextRef (newRef + 1) } : Store)
    match (s.resolve parent).bind (fun n => n.payload) with
    | none => (mk Lifecycle.errored none, { ref := newRef, isOk := false })
    | some pp =>
      match env.produce tr params pp with
      | Res.ok pl => (mk Lifecycle.ok (some pl), { ref := newRef, isOk := true })
      | Res.err _ => (mk Lifecycle.errored none, { ref := newRef, isOk := false })
  | Op.updateOp r params =>
    match s.resolve r with
    | none => (s, { ref := r, isOk := false })
    | some n =>
      let put := fun (lc : Lifecycle) (pl : Option Payload) =>
        let upd := fun (m : Node) => { m with params := params, lifecycle := lc, payload := pl }
        ({ s with nodes := replaceNode s.nodes r upd } : Store)
      match (s.resolve n.parent).bind (fun m => m.payload) with
      | none => (put Lifecycle.errored none, { ref := r, isOk := false })
      | some pp =>
        match env.produce n.transformer params pp with
        | Res.ok pl => (put Lifecycle.ok (some pl), { ref := r, isOk := true })
        | Res.err _ => (put Lifecycle.errored none, { ref := r, isOk := false })
  | Op.deleteOp r =>
    let sub := subtreeRefs s.nodes r
    ({ s with nodes := s.nodes.filter (fun n => !(sub.contains n.ref)) }, { ref := r, isOk := true })

/-- Modelled from the spec: apply a transaction's staged operations in
declaration order, collecting one selector per operation. -/
def commitOps (env : Env) (s : Store) : List Op → Store × List Selector
  | [] => (s, [])
  | op :: rest =>
    let s1 := applyOne env s op
    let r := commitOps env s1.1 rest
    (r.1, s1.2 :: r.2)

/-- The outcome of a commit: the resulting store, the selectors in operation
order, and whether the commit as a whole errored (only possible under the
full-revert policy, in which case the store is the pre-commit snapshot). -/
structure CommitOutcome where
  store : Store
  selectors : List Selector
  errored : Bool
deriving DecidableEq, Repr

/-- Modelled from the spec: `plugin.updateDataState(builder, options?)` — the
commit engine (spec section 4.2).  With `revertOnError` and any failed
operation, the snapshot is restored (spec step 3) and the commit reports a
`CommitError`; otherwise all completed operations are kept and the commit
reports success with a mixed list of selectors (spec step 4). -/
def updateDataState (env : Env) (s : Store) (b : Builder) (revertOnError : Bool) : CommitOutcome :=
  let r := commitOps env s b.ops
  let failed := r.2.any (fun sel => !sel.isOk)
  if failed && revertOnError then
    { store := s, selectors := r.2, errored := true }
  else
    { store := r.1, selectors := r.2, errored := false }

/-- `StructureBuilderTags.Component` from the source. -/
def StructureBuilderTags.Component : String := "structure-component"

/-- The trajectory-format argument of `parseTrajectoryData`: either a built-in
format name or a provider object (`typeof format === 'string'` dispatch). -/
inductive TrajectoryFormatArg
  | byName (format : String)
  | provider (p : TrajectoryFormatProvider)

/-- The second argument of the `parseTrajectory` overloads: a format (for a
raw-data reference) or `ParseBlob` transformer params (for a blob reference). -/
inductive ParseTrajectoryArg
  | formatArg (f : TrajectoryFormatArg)
  | blobParamsArg (p : Params)

/-- `SO.Data.Blob.is(cell.obj)`: the data kind of the payload is a blob. -/
def isBlobPayload : Option Payload → Bool
  | some Payload.blob => true
  | _ => false

/-- `ModelSymmetry.Provider.get(m)`: the symmetry attached to a model payload,
none for a model without symmetry or a non-model payload. -/
def modelSymmetryGet : Payload → Option Symmetry
  | Payload.model symm => symm
  | _ => none

/-- `SpacegroupCell.isZero(cell)` on the possibly-absent cell
`ModelSymmetry.Provider.get(m)?.spacegroup.cell`: an absent cell counts as
zero, a present cell is zero when its volume is zero. -/
def spacegroupCellIsZero : Option SpacegroupCell → Bool
  | none => true
  | some c => c.volume == 0

/-- `selector.cell?.obj?.data.elementCount === 0`: true exactly when the
payload at hand is a structure with `elementCount` zero (an absent payload or
a payload without `elementCount` compares false, as in the source). -/
def elementCountIsZero : Option Payload → Bool
  | some (Payload.molStructure ec) => ec == 0
  | _ => false

/-- `selector.isOk` read off a commit result: the selector for the given
reference reports Ok. -/
def selectorIsOk (sels : List Selector) (r : Nat) : Bool :=
  match sels.find? (fun sel => sel.ref == r) with
  | some sel => sel.isOk
  | none => false

/-- `StructureBuilder.parseTrajectoryData`: look the provider up by name when
the format argument is a string (failing for an unsupported name), then
delegate to the provider's parse. -/
def parseTrajectoryData (env : Env) (s : Store) (data : Nat) (format : TrajectoryFormatArg) : StepResult (Res Nat) :=
  match format with
  | TrajectoryFormatArg.byName name =>
    match env.trajectoryFormatByName name with
    | none => { store := s, events := [], value := Res.err (name ++ " is not a supported data format.") }
    | some p => p.parse s data
  | TrajectoryFormatArg.provider p => p.parse s data

/-- `StructureBuilder.parseTrajectoryBlob`: stage `Data.ParseBlob` (as a ghost
node) followed by `Model.TrajectoryFromBlob`, commit with `revertOnError`
true, and return the selector of the trajectory node. -/
def parseTrajectoryBlob (env : Env) (s : Store) (data : Nat) (params : Params) : StepResult (Res Nat) :=
  let b := (((Store.build s).to data).apply Transformer.ParseBlob params [] true).apply
    Transformer.TrajectoryFromBlob Params.undef [] false
  let u := updateDataState env s b true
  { store := u.store
    events := [Event.commitEv true b.ops]
    value := if u.errored then Res.err "commit failed" else Res.ok b.anchor }

/-- `StructureBuilder.parseTrajectory`: resolve and check the data cell
(failing with the invalid-data-cell error when it does not resolve), then
dispatch on the cell's data kind: a blob runs the two-stage blob pipeline,
anything else the direct single-item parse.  (The argument variants that the
TypeScript overload signatures exclude are mapped to the same failure.) -/
def parseTrajectory (env : Env) (s : Store) (data : Nat) (arg : ParseTrajectoryArg) : StepResult (Res Nat) :=
  match resolveAndCheck s data with
  | none => { store := s, events := [], value := Res.err "Invalid data cell." }
  | some cell =>
    if isBlobPayload cell.payload then
      match arg with
      | ParseTrajectoryArg.blobParamsArg p => parseTrajectoryBlob env s data p
      | ParseTrajectoryArg.formatArg _ => { store := s, events := [], value := Res.err "Invalid data cell." }
    else
      match arg with
      | ParseTrajectoryArg.formatArg f => parseTrajectoryData env s data f
      | ParseTrajectoryArg.blobParamsArg _ => { store := s, events := [], value := Res.err "Invalid data cell." }

/-- `StructureBuilder.createModel`: stage `Model.ModelFromTrajectory` with the
given params or the default `\x7b modelIndex: 0 \x7d`, commit with
`revertOnError` true, and return the model selector. -/
def createModel (env : Env) (s : Store) (trajectory : Nat) (params : Option Params) (initialGhost : Bool) : StepResult (Res Nat) :=
  let b := ((Store.build s).to trajectory).apply Transformer.ModelFromTrajectory
    (params.getD (Params.modelFromTrajectory 0)) [] initialGhost
  let u := updateDataState env s b true
  { store := u.store
    events := [Event.commitEv true b.ops]
    value := if u.errored then Res.err "commit failed" else Res.ok b.anchor }

/-- `StructureBuilder.insertModelProperties`: stage
`Model.CustomModelProperties` with the given (possibly undefined) params,
commit with `revertOnError` true, and return the selector. -/
def insertModelProperties (env : Env) (s : Store) (model : Nat) (params : Option Params) : StepResult (Res Nat) :=
  let b := ((Store.build s).to model).apply Transformer.CustomModelProperties
    (params.getD Params.undef) [] false
  let u := updateDataState env s b true
  { store := u.store
    events := [Event.commitEv true b.ops]
    value := if u.errored then Res.err "commit failed" else Res.ok b.anchor }

/-- `StructureBuilder.tryCreateUnitcell`: return undefined without committing
when the model reference does not resolve to a payload or when the model's
spacegroup cell is (or counts as) zero; otherwise stage
`Representation.ModelUnitcell3D`, commit with `revertOnError` true, and
return the selector. -/
def tryCreateUnitcell (env : Env) (s : Store) (model : Nat) (params : Option Params) (initialGhost : Bool) : StepResult (Res (Option Nat)) :=
  match (resolveAndCheck s model).bind (fun n => n.payload) with
  | none => { store := s, events := [], value := Res.ok none }
  | some m =>
    if spacegroupCellIsZero ((modelSymmetryGet m).map (fun sy => sy.cell)) then
      { store := s, events := [], value := Res.ok none }
    else
      let b := ((Store.build s).to model).apply Transformer.ModelUnitcell3D
        (params.getD Params.undef) [] initialGhost
      let u := updateDataState env s b true
      { store := u.store
        events := [Event.commitEv true b.ops]
        value := if u.errored then Res.err "commit failed" else Res.ok (some b.anchor) }

/-- The structure-type default of `createStructure`: with params omitted, use
deposited (with empty params) when the model resolves and has no symmetry or
an empty assembly list; otherwise keep the omitted params, which fall back to
assembly (with empty params) at the apply site. -/
def structureTypeDefault (s : Store) (modelRef : Nat) (params : Option RootStructureDef) : Option RootStructureDef :=
  match params with
  | some p => some p
  | none =>
    match resolveAndCheck s modelRef with
    | some cell =>
      match cell.payload.bind modelSymmetryGet with
      | none => some { name := "deposited", p := [] }
      | some symm =>
        if symm.assemblies.length = 0 then some { name := "deposited", p := [] } else none
    | none => none

/-- `StructureBuilder.createStructure`: fill the params default in, stage
`Model.StructureFromModel` with `type := params || assembly`, commit with
`revertOnError` true, and return the structure selector. -/
def createStructure (env : Env) (s : Store) (modelRef : Nat) (params : Option RootStructureDef) (initialGhost : Bool) : StepResult (Res Nat) :=
  let ty := (structureTypeDefault s modelRef params).getD { name := "assembly", p := [] }
  let b := ((Store.build s).to modelRef).apply Transformer.StructureFromModel
    (Params.structureFromModel ty) [] initialGhost
  let u := updateDataState env s b true
  { store := u.store
    events := [Event.commitEv true b.ops]
    value := if u.errored then Res.err "commit failed" else Res.ok b.anchor }

/-- `StructureBuilder.insertStructureProperties`: stage
`Model.CustomStructureProperties` with the given (possibly undefined) params,
commit with `revertOnError` true, and return the selector. -/
def insertStructureProperties (env : Env) (s : Store) (structureRef : Nat) (params : Option Params) : StepResult (Res Nat) :=
  let b := ((Store.build s).to structureRef).apply Transformer.CustomStructureProperties
    (params.getD Params.undef) [] false
  let u := updateDataState env s b true
  { store := u.store
    events := [Event.commitEv true b.ops]
    value := if u.errored then Res.err "commit failed" else Res.ok b.anchor }

/-- The derived tag-key `structure-component-<key>`. -/
def componentKeyTag (key : String) : String :=
  "structure-component-" ++ key

/-- The tag list `tryCreateComponent` passes to the tagged upsert: the caller
tags (when given) followed by the generic component tag and the key tag. -/
def componentAllTags (key : String) (tags : Option (List String)) : List String :=
  match tags with
  | some ts => ts ++ [StructureBuilderTags.Component, componentKeyTag key]
  | none => [StructureBuilderTags.Component, componentKeyTag key]

/-- The staged transaction of `tryCreateComponent`: a tagged upsert of
`Model.StructureComponent` under the structure anchor, keyed by the key tag. -/
def componentBuilder (s : Store) (structureRef : Nat) (params : StructureComponentParams) (key : String) (tags : Option (List String)) : Builder :=
  ((Store.build s).to structureRef).applyOrUpdateTagged (componentKeyTag key)
    Transformer.StructureComponent (Params.structureComponent params) (componentAllTags key tags)

/-- `StructureBuilder.tryCreateComponent`: commit the tagged upsert with the
default (partial-commit) policy; if the selector is not ok or the committed
payload has `elementCount` zero, issue a second commit deleting the node and
return undefined; otherwise return the committed node's selector. -/
def tryCreateComponent (env : Env) (s : Store) (structureRef : Nat) (params : StructureComponentParams) (key : String) (tags : Option (List String)) : StepResult (Option Nat) :=
  let b := componentBuilder s structureRef params key tags
  let u := updateDataState env s b false
  let selRef := b.anchor
  if !(selectorIsOk u.selectors selRef) || elementCountIsZero ((u.store.resolve selRef).bind (fun n => n.payload)) then
    let del := (Store.build u.store).delete selRef
    let ud := updateDataState env u.store del false
    { store := ud.store
      events := [Event.commitEv false b.ops, Event.commitEv false del.ops]
      value := none }
  else
    { store := u.store
      events := [Event.commitEv false b.ops]
      value := some selRef }

/-- The optional `\x7b label?, tags? \x7d` argument of the component helpers. -/
structure ComponentWrapperParams where
  label : Option String
  tags : Option (List String)
deriving DecidableEq, Repr

/-- `(params?.label || '').trim()`. -/
def wrapperLabel (params : Option ComponentWrapperParams) : String :=
  ((params.bind (fun p => p.label)).getD "").trim

/-- `StructureBuilder.tryCreateComponentFromExpression`: delegate to
`tryCreateComponent` with an expression component type, `nullIfEmpty` true
and the trimmed caller label. -/
def tryCreateComponentFromExpression (env : Env) (s : Store) (structureRef : Nat) (expression : Nat) (key : String) (params : Option ComponentWrapperParams) : StepResult (Option Nat) :=
  tryCreateComponent env s structureRef
    { type := ComponentTypeSel.expression expression
      nullIfEmpty := true
      label := wrapperLabel params } key (params.bind (fun p => p.tags))

/-- `StructureBuilder.tryCreateComponentStatic`: delegate to
`tryCreateComponent` with a static component type, `nullIfEmpty` true and the
trimmed caller label. -/
def tryCreateComponentStatic (env : Env) (s : Store) (structureRef : Nat) (type : String) (key : String) (params : Option ComponentWrapperParams) : StepResult (Option Nat) :=
  tryCreateComponent env s structureRef
    { type := ComponentTypeSel.staticT type
      nullIfEmpty := true
      label := wrapperLabel params } key (params.bind (fun p => p.tags))

/-- A structure selection query, as consumed by the selection pipeline: its
label, expression, whether it references the current selection (bundle path),
the selection resolution step (given the task context and the structure
payload) and the optional custom-property step. -/
structure StructureSelectionQuery where
  referencesCurrent : Bool
  label : String
  expression : Nat
  getSelection : Nat → Payload → Nat
  hasEnsureCustomProperties : Bool

/-- Modelled from the spec: a Task — a named, addressable, cancellable unit of
asynchronous work; running it supplies the task's cancellation context to the
body. -/
structure TaskT (α : Type) where
  name : String
  run : Nat → α

/-- The `StructureComponentParams` built by the selection pipeline for a given
task context: a bundle from the resolved selection when the query references
the current selection, its expression otherwise; `nullIfEmpty` true and the
trimmed caller label falling back to the selection's label. -/
def selectionTransformParams (env : Env) (selection : StructureSelectionQuery) (label : String) (taskCtx : Nat) (structureData : Payload) : StructureComponentParams :=
  if selection.referencesCurrent then
    { type := ComponentTypeSel.bundle (env.bundleFromSelection (selection.getSelection taskCtx structureData))
      nullIfEmpty := true
      label := if label == "" then selection.label else label }
  else
    { type := ComponentTypeSel.expression selection.expression
      nullIfEmpty := true
      label := if label == "" then selection.label else label }

/-- `StructureBuilder.tryCreateComponentFromSelection`, as the task it builds:
a single task named `Query Component` whose body resolves the structure,
resolves the selection (through the task's own context), runs the optional
custom-property step (again through the task's context) and delegates to
`tryCreateComponent`. -/
def tryCreateComponentFromSelectionTask (env : Env) (s : Store) (structureRef : Nat) (selection : StructureSelectionQuery) (key : String) (params : Option ComponentWrapperParams) : TaskT (StepResult (Option Nat)) :=
  { name := "Query Component"
    run := fun taskCtx =>
      let label := wrapperLabel params
      let tags := params.bind (fun p => p.tags)
      match (resolveAndCheck s structureRef).bind (fun n => n.payload) with
      | none => { store := s, events := [], value := none }
      | some structureData =>
        let ev1 := if selection.referencesCurrent then [Event.getSelectionCall taskCtx] else []
        let transformParams := selectionTransformParams env selection label taskCtx structureData
        let ev2 := if selection.hasEnsureCustomProperties then [Event.ensurePropsCall taskCtx] else []
        let r := tryCreateComponent env s structureRef transformParams key tags
        { store := r.store, events := ev1 ++ ev2 ++ r.events, value := r.value } }

/-- `StructureBuilder.tryCreateComponentFromSelection`: run the task built by
`tryCreateComponentFromSelectionTask` (the runner supplies the context). -/
def tryCreateComponentFromSelection (env : Env) (s : Store) (structureRef : Nat) (selection : StructureSelectionQuery) (key : String) (params : Option ComponentWrapperParams) (taskCtx : Nat) : StepResult (Option Nat) :=
  (tryCreateComponentFromSelectionTask env s structureRef selection key params).run taskCtx

/-! ### Observables and test fixtures -/

/-- `Res.isOk`. -/
def Res.isOk {α : Type} : Res α → Bool
  | Res.ok _ => true
  | Res.err _ => false

/-- A commit event submitted with the full-revert policy (non-commit events
pass trivially). -/
def isFullRevertCommit : Event → Bool
  | Event.commitEv rev _ => rev
  | _ => true

/-- A commit event submitted without the full-revert policy (non-commit
events pass trivially). -/
def isPartialCommit : Event → Bool
  | Event.commitEv rev _ => !rev
  | _ => true

/-- Whether an event is a commit at all. -/
def isCommitEvent : Event → Bool
  | Event.commitEv _ _ => true
  | _ => false

/-- The full-revert failure contract of a pipeline step: every commit it
submits carries the full-revert flag, and if the step reports an error its
resulting store is the pre-step store. -/
def fullRevertContract {α : Type} (s : Store) (r : StepResult (Res α)) : Bool :=
  r.events.all isFullRevertCommit &&
    (match r.value with
     | Res.err _ => decide (r.store = s)
     | Res.ok _ => true)

/-- The condition under which `createStructure` with omitted params defaults
to a deposited structure: the model resolves and has no symmetry or an empty
assembly list. -/
def depositedDefaultApplies (s : Store) (modelRef : Nat) : Bool :=
  match resolveAndCheck s modelRef with
  | some cell =>
    match cell.payload.bind modelSymmetryGet with
    | none => true
    | some symm => symm.assemblies.length == 0
  | none => false

/-- The transformer params carried by a staged operation (none for a delete). -/
def Op.stagedParams : Op → Option Params
  | Op.applyOp _ _ _ p _ _ => some p
  | Op.updateOp _ p => some p
  | Op.deleteOp _ => none

/-- The staged operations of the first commit among a list of events. -/
def firstCommitOps : List Event → Option (List Op)
  | [] => none
  | Event.commitEv _ ops :: _ => some ops
  | _ :: rest => firstCommitOps rest

/-- The transformer params of the single operation of the first commit. -/
def firstCommitParams (evs : List Event) : Option Params :=
  match firstCommitOps evs with
  | some [op] => op.stagedParams
  | _ => none

/-- Every suspend-point event carries the given task context (commit events
pass trivially). -/
def eventCtxOk (ctx : Nat) : Event → Bool
  | Event.getSelectionCall c => c == ctx
  | Event.ensurePropsCall c => c == ctx
  | Event.commitEv _ _ => true

/-- Test environment: structure components produce an empty payload for the
label `empty`, fail outright for the label `fail`, and otherwise produce a
non-empty structure; the remaining transformers produce payloads of their
natural kinds; no named trajectory formats are registered. -/
def envA : Env :=
  { produce := fun tr params _pl =>
      match tr, params with
      | Transformer.StructureComponent, Params.structureComponent p =>
        if p.label == "empty" then Res.ok (Payload.molStructure 0)
        else if p.label == "fail" then Res.err "production failed"
        else Res.ok (Payload.molStructure 3)
      | Transformer.TrajectoryFromBlob, _ => Res.ok Payload.trajectory
      | Transformer.ParseBlob, _ => Res.ok Payload.blob
      | Transformer.ModelUnitcell3D, _ => Res.ok Payload.unitcellRepr
      | _, _ => Res.ok Payload.trajectory
    trajectoryFormatByName := fun _ => none
    bundleFromSelection := fun n => n }

/-- Test environment in which every production step fails. -/
def envFail : Env :=
  { produce := fun _ _ _ => Res.err "production failed"
    trajectoryFormatByName := fun _ => none
    bundleFromSelection := fun n => n }

/-- The empty store. -/
def storeEmpty : Store := { nodes := [], nextRef := 0 }

/-- A store holding one Ok structure node (reference 1) with five elements. -/
def storeStruct : Store :=
  { nodes := [{ ref := 1, parent := 0, transformer := Transformer.StructureFromModel,
                params := Params.undef, tags := [], lifecycle := Lifecycle.ok,
                payload := some (Payload.molStructure 5), isGhost := false }],
    nextRef := 2 }

/-- A store holding one Ok model node (reference 1) whose spacegroup cell is zero. -/
def storeModelZero : Store :=
  { nodes := [{ ref := 1, parent := 0, transformer := Transformer.ModelFromTrajectory,
                params := Params.undef, tags := [], lifecycle := Lifecycle.ok,
                payload := some (Payload.model (some { cell := { volume := 0 }, assemblies := [] })),
                isGhost := false }],
    nextRef := 2 }

/-- A store holding one Ok model node (reference 1) with a non-zero cell and
one assembly. -/
def storeModelSym : Store :=
  { nodes := [{ ref := 1, parent := 0, transformer := Transformer.ModelFromTrajectory,
                params := Params.undef, tags := [], lifecycle := Lifecycle.ok,
                payload := some (Payload.model (some { cell := { volume := 4 }, assemblies := ["1"] })),
                isGhost := false }],
    nextRef := 2 }

/-- A store holding one Ok blob data node (reference 1). -/
def storeBlob : Store :=
  { nodes := [{ ref := 1, parent := 0, transformer := Transformer.ParseBlob,
                params := Params.undef, tags := [], lifecycle := Lifecycle.ok,
                payload := some Payload.blob, isGhost := false }],
    nextRef := 2 }

/-- Component params labelled `water` (non-empty production under `envA`). -/
def qWater : StructureComponentParams :=
  { type := ComponentTypeSel.expression 7, nullIfEmpty := true, label := "water" }

/-- Component params labelled `empty` (empty production under `envA`). -/
def qEmpty : StructureComponentParams :=
  { type := ComponentTypeSel.expression 8, nullIfEmpty := true, label := "empty" }

/-- Component params labelled `fail` (failing production under `envA`). -/
def qFail : StructureComponentParams :=
  { type := ComponentTypeSel.expression 9, nullIfEmpty := true, label := "fail" }

/-- The payload currently stored at a reference. -/
def payloadAt (s : Store) (r : Nat) : Option Payload :=
  (s.resolve r).bind (fun n => n.payload)

/-- Wellformedness of a store: references are distinct, and all references
and parent references are below the fresh-reference counter. -/
def Store.WF (s : Store) : Prop :=
  (s.nodes.map (fun n => n.ref)).Nodup ∧
  (∀ n ∈ s.nodes, n.ref < s.nextRef) ∧
  (∀ n ∈ s.nodes, n.parent < s.nextRef) ∧
  (∀ n ∈ s.nodes, n.parent ≠ n.ref)

/-- The node created by the insert branch of the component upsert. -/
def mkComponentNode (s : Store) (a : Nat) (q : StructureComponentParams) (key : String)
    (tags : Option (List String)) (lc : Lifecycle) (pl : Option Payload) : Node :=
  { ref := s.nextRef, parent := a, transformer := Transformer.StructureComponent,
    params := Params.structureComponent q, tags := componentAllTags key tags,
    lifecycle := lc, payload := pl, isGhost := false }

/-- The in-place node update performed by the update branch of the component
upsert on success. -/
def updComponentNode (q : StructureComponentParams) (pl : Payload) (m : Node) : Node :=
  { m with params := Params.structureComponent q, lifecycle := Lifecycle.ok, payload := some pl }

/-- The production environment is well-typed for `TrajectoryFromBlob`: its
interface type says it produces a trajectory payload. -/
def ProduceTrajectoryTyped (env : Env) : Prop :=
  ∀ params pl p, env.produce Transformer.TrajectoryFromBlob params pl = Res.ok p →
    p = Payload.trajectory

/-- The node at a reference, if it holds a payload, holds a trajectory. -/
def TrajectoryShapedAt (s : Store) (r : Nat) : Prop :=
  ∀ pl, payloadAt s r = some pl → pl = Payload.trajectory

/-- A format provider is well-typed: per its interface it returns a
trajectory selector. -/
def ProviderTrajectoryTyped (p : TrajectoryFormatProvider) : Prop :=
  ∀ s r ref, (p.parse s r).value = Res.ok ref → TrajectoryShapedAt (p.parse s r).store ref

/-- The provider a format argument resolves to: a registry lookup for a
format name, the provider itself otherwise. -/
def formatProviderOf (env : Env) : TrajectoryFormatArg → Option TrajectoryFormatProvider
  | TrajectoryFormatArg.byName n => env.trajectoryFormatByName n
  | TrajectoryFormatArg.provider pr => some pr

/-- Component params labelled `ligand` (non-empty production under `envA`). -/
def qLigand : StructureComponentParams :=
  { type := ComponentTypeSel.expression 10, nullIfEmpty := true, label := "ligand" }

/-- A selection query that references the current selection. -/
def selCurrent : StructureSelectionQuery :=
  { referencesCurrent := true, label := "sel", expression := 4,
    getSelection := fun _ _ => 12, hasEnsureCustomProperties := true }

/-! ### Helper lemmas about the engine -/

theorem hasTag_iff (tags : List String) (t : String) : hasTag tags t = true ↔ t ∈ tags := by
  simp [hasTag, List.any_eq_true, beq_iff_eq]

theorem find?_append_none {α : Type} (p : α → Bool) (l1 l2 : List α) (h : l1.find? p = none) :
    (l1 ++ l2).find? p = l2.find? p := by
  rw [List.find?_append, h]
  rfl

theorem find?_append_some {α : Type} (p : α → Bool) (l1 l2 : List α) {a : α} (h : l1.find? p = some a) :
    (l1 ++ l2).find? p = some a := by
  rw [List.find?_append, h]
  rfl

/-- A commit with the full-revert policy either succeeds or leaves the store
exactly as it was (spec section 4.2, step 3). -/
theorem updateDataState_revert (env : Env) (s : Store) (b : Builder) :
    (updateDataState env s b true).errored = true → (updateDataState env s b true).store = s := by
  intro h
  unfold updateDataState at *
  by_cases hf : ((commitOps env s b.ops).2.any fun sel => !sel.isOk) = true
  · simp [hf]
  · rw [Bool.not_eq_true] at hf
    simp [hf] at h

/-- A commit without the full-revert policy never reports a commit error
(spec section 4.2, step 4). -/
theorem updateDataState_partial (env : Env) (s : Store) (b : Builder) :
    (updateDataState env s b false).errored = false ∧
    (updateDataState env s b false).store = (commitOps env s b.ops).1 ∧
    (updateDataState env s b false).selectors = (commitOps env s b.ops).2 := by
  unfold updateDataState
  simp

theorem mem_subtreeFuel_of_mem (k : Nat) (nodes : List Node) (acc : List Nat) {a : Nat}
    (h : a ∈ acc) : a ∈ subtreeFuel k nodes acc := by
  induction k generalizing acc with
  | zero => exact h
  | succ k ih =>
    exact ih _ (by simp [expandSub]; exact Or.inl h)

theorem mem_subtreeRefs_self (nodes : List Node) (r : Nat) : r ∈ subtreeRefs nodes r :=
  mem_subtreeFuel_of_mem _ _ _ (by simp)

/-- When no node's parent lies in the accumulated set (beyond what is already
accumulated), the subtree closure is the accumulator itself. -/
theorem subtreeFuel_fixed (k : Nat) (nodes : List Node) (acc : List Nat)
    (h : ∀ n ∈ nodes, n.parent ∈ acc → n.ref ∈ acc) :
    subtreeFuel k nodes acc = acc := by
  have hexp : expandSub nodes acc = acc := by
    unfold expandSub
    have hnil : nodes.filter (fun n => acc.contains n.parent && !(acc.contains n.ref)) = [] := by
      rw [List.filter_eq_nil_iff]
      intro n hn
      simp only [Bool.and_eq_true, Bool.not_eq_true', Bool.not_eq_true, not_and]
      intro hp
      have hp' : n.parent ∈ acc := List.elem_iff.mp hp
      have hr : n.ref ∈ acc := h n hn hp'
      have hr' : List.elem n.ref acc = true := List.elem_iff.mpr hr
      simpa [List.contains] using hr'
    rw [hnil]
    simp
  induction k with
  | zero => rfl
  | succ k ih =>
    unfold subtreeFuel
    rw [hexp]
    exact ih

/-- Deleting a subtree removes its root from the store. -/
theorem resolve_after_delete (env : Env) (s : Store) (r : Nat) :
    ((applyOne env s (Op.deleteOp r)).1).resolve r = none := by
  unfold applyOne Store.resolve
  simp only
  rw [List.find?_eq_none]
  intro n hn
  rw [List.mem_filter] at hn
  rcases hn with ⟨_, hkeep⟩
  simp only [Bool.not_eq_true'] at hkeep
  intro hbeq
  have hrr : n.ref = r := by simpa using hbeq
  subst hrr
  have hmem : n.ref ∈ subtreeRefs s.nodes n.ref := mem_subtreeRefs_self _ _
  have hmem' : List.elem n.ref (subtreeRefs s.nodes n.ref) = true := List.elem_iff.mpr hmem
  have : (subtreeRefs s.nodes n.ref).contains n.ref = true := by simpa [List.contains] using hmem'
  rw [this] at hkeep
  cases hkeep

theorem find?_ref_of_mem_nodup {l : List Node} (hnd : (l.map (fun n => n.ref)).Nodup)
    {c : Node} (hc : c ∈ l) : l.find? (fun n => n.ref == c.ref) = some c := by
  induction l with
  | nil => cases hc
  | cons h t ih =>
    rw [List.map_cons, List.nodup_cons] at hnd
    rcases hnd with ⟨hnotin, hndt⟩
    rw [List.mem_cons] at hc
    rcases hc with rfl | hct
    · simp [List.find?_cons_of_pos]
    · have hne : (h.ref == c.ref) = false := by
        rw [beq_eq_false_iff_ne]
        intro he
        exact hnotin (he ▸ List.mem_map_of_mem (fun n => n.ref) hct)
      rw [List.find?_cons_of_neg _ (by simp [hne])]
      exact ih hndt hct

/-- Resolution by reference in a store with distinct references finds the
member node itself. -/
theorem resolve_of_mem_nodup {s : Store} (hnd : (s.nodes.map (fun n => n.ref)).Nodup)
    {c : Node} (hc : c ∈ s.nodes) : s.resolve c.ref = some c :=
  find?_ref_of_mem_nodup hnd hc

/-- `find?` over a pointwise predicate-preserving and shape-preserving map. -/
theorem find?_map_pred {α : Type} (p : α → Bool) (g : α → α) (l : List α)
    (h : ∀ a, p (g a) = p a) :
    (l.map g).find? p = (l.find? p).map g := by
  induction l with
  | nil => rfl
  | cons x t ih =>
    by_cases hx : p x = true
    · rw [List.map_cons, List.find?_cons_of_pos _ (by rw [h x]; exact hx),
        List.find?_cons_of_pos _ hx]
      rfl
    · rw [List.map_cons, List.find?_cons_of_neg _ (by rw [h x]; exact hx),
        List.find?_cons_of_neg _ hx]
      exact ih

theorem filter_map_pred {α : Type} (p : α → Bool) (g : α → α) (l : List α)
    (h : ∀ a, p (g a) = p a) :
    (l.map g).filter p = (l.filter p).map g := by
  rw [List.filter_map]
  congr 1
  apply List.filter_congr
  intro a _
  exact h a

/-- `find?` is the head of `filter`. -/
theorem find?_eq_head_filter {α : Type} (p : α → Bool) (l : List α) :
    l.find? p = (l.filter p).head? := by
  induction l with
  | nil => rfl
  | cons x t ih =>
    by_cases hx : p x = true
    · rw [List.find?_cons_of_pos _ hx, List.filter_cons_of_pos hx]
      rfl
    · rw [List.find?_cons_of_neg _ hx, List.filter_cons_of_neg hx]
      exact ih

theorem filter_eq_singleton_of_find? {α : Type} (p : α → Bool) (l : List α) {c : α}
    (hf : l.find? p = some c) (hlen : (l.filter p).length ≤ 1) :
    l.filter p = [c] := by
  rw [find?_eq_head_filter] at hf
  rcases hfl : l.filter p with - | ⟨x, t⟩
  · rw [hfl] at hf; cases hf
  · rw [hfl] at hf hlen
    simp at hf hlen
    subst hf
    simp [hlen]

/-- The derived key tag is never the generic component tag. -/
theorem componentKeyTag_ne_component (k : String) :
    (componentKeyTag k = StructureBuilderTags.Component) → False := by
  intro h
  have hlen := congrArg String.length h
  rw [componentKeyTag, String.length_append] at hlen
  have h1 : ("structure-component-" : String).length = 20 := rfl
  have h2 : (StructureBuilderTags.Component).length = 19 := rfl
  omega

/-- The derived key tags of distinct keys are distinct. -/
theorem componentKeyTag_injective {k1 k2 : String} (h : componentKeyTag k1 = componentKeyTag k2) :
    k1 = k2 := by
  unfold componentKeyTag at h
  have hd := congrArg String.data h
  rw [String.data_append, String.data_append] at hd
  exact String.ext (List.append_cancel_left hd)

/-- The full-revert contract holds for every step built as one full-revert
commit of a staged transaction followed by a selector return. -/
theorem fullRevertContract_mk {α : Type} (env : Env) (s : Store) (b : Builder) (v : α) (e : String) :
    fullRevertContract s
      { store := (updateDataState env s b true).store
        events := [Event.commitEv true b.ops]
        value := if (updateDataState env s b true).errored then Res.err e else Res.ok v } = true := by
  by_cases he : (updateDataState env s b true).errored = true
  · have hst := updateDataState_revert env s b he
    simp [fullRevertContract, he, hst, isFullRevertCommit]
  · rw [Bool.not_eq_true] at he
    simp [fullRevertContract, he, isFullRevertCommit]

/-! ### Claim theorems -/

/-- C6: a `parseTrajectory` call whose data reference does not resolve to a
valid cell aborts with the invalid-data-cell error before any dispatch or
store mutation (no events, store unchanged); an unsupported format name
aborts `parseTrajectoryData` with an error before any commit. -/
theorem C6_invalid_reference_aborts (env : Env) (s : Store) (data : Nat)
    (arg : ParseTrajectoryArg) (name : String)
    (h1 : resolveAndCheck s data = none)
    (h2 : env.trajectoryFormatByName name = none) :
    parseTrajectory env s data arg =
      { store := s, events := [], value := Res.err "Invalid data cell." } ∧
    parseTrajectoryData env s data (TrajectoryFormatArg.byName name) =
      { store := s, events := [], value := Res.err (name ++ " is not a supported data format.") } := by
  constructor
  · unfold parseTrajectory
    rw [h1]
  · have hred : parseTrajectoryData env s data (TrajectoryFormatArg.byName name) =
      match env.trajectoryFormatByName name with
      | none => { store := s, events := [],
                  value := Res.err (name ++ " is not a supported data format.") }
      | some p => p.parse s data := rfl
    rw [hred, h2]

theorem C6_witness :
    parseTrajectory envA storeEmpty 0 (ParseTrajectoryArg.formatArg (TrajectoryFormatArg.byName "pdb")) =
      { store := storeEmpty, events := [], value := Res.err "Invalid data cell." } ∧
    parseTrajectoryData envA storeEmpty 0 (TrajectoryFormatArg.byName "pdb") =
      { store := storeEmpty, events := [], value := Res.err ("pdb" ++ " is not a supported data format.") } :=
  C6_invalid_reference_aborts envA storeEmpty 0 _ "pdb" (by rfl) (by rfl)

/-- C2: every required dependency-chain step — `parseTrajectoryBlob`,
`createModel`, `insertModelProperties`, `createStructure`,
`insertStructureProperties` and `tryCreateUnitcell` — submits its commit with
the full-revert failure policy: every commit event it emits carries
`revertOnError` true, and whenever the step reports an error the store equals
the pre-step store. -/
theorem C2_full_revert_chain (env : Env) (s : Store) (d1 t1 m1 m2 s1 s2 : Nat)
    (pb : Params) (pm pmp pu psp : Option Params) (pst : Option RootStructureDef) (g : Bool) :
    fullRevertContract s (parseTrajectoryBlob env s d1 pb) = true ∧
    fullRevertContract s (createModel env s t1 pm g) = true ∧
    fullRevertContract s (insertModelProperties env s m1 pmp) = true ∧
    fullRevertContract s (createStructure env s m2 pst g) = true ∧
    fullRevertContract s (insertStructureProperties env s s1 psp) = true ∧
    fullRevertContract s (tryCreateUnitcell env s s2 pu g) = true := by
  refine ⟨?_, ?_, ?_, ?_, ?_, ?_⟩
  · exact fullRevertContract_mk env s _ _ _
  · exact fullRevertContract_mk env s _ _ _
  · exact fullRevertContract_mk env s _ _ _
  · exact fullRevertContract_mk env s _ _ _
  · exact fullRevertContract_mk env s _ _ _
  · unfold tryCreateUnitcell
    rcases h : (resolveAndCheck s s2).bind (fun n => n.payload) with - | m
    · rfl
    · by_cases hz : spacegroupCellIsZero ((modelSymmetryGet m).map (fun sy => sy.cell)) = true
      · simp only [hz, if_pos]
        rfl
      · rw [Bool.not_eq_true] at hz
        simp only [hz, Bool.false_eq_true, if_false]
        exact fullRevertContract_mk env s _ _ _

/-- C8: `tryCreateUnitcell` returns undefined without committing (no events,
store untouched) when the model reference does not resolve to a payload or
when the model's spacegroup cell is (or counts as) zero; only otherwise does
it submit exactly one commit staging the `ModelUnitcell3D` node, returning
that node's selector on success. -/
theorem C8_tryCreateUnitcell_guards (env : Env) (s : Store) (model : Nat)
    (params : Option Params) (g : Bool) :
    ((resolveAndCheck s model).bind (fun n => n.payload) = none →
      tryCreateUnitcell env s model params g = { store := s, events := [], value := Res.ok none }) ∧
    (∀ m, (resolveAndCheck s model).bind (fun n => n.payload) = some m →
      spacegroupCellIsZero ((modelSymmetryGet m).map (fun sy => sy.cell)) = true →
      tryCreateUnitcell env s model params g = { store := s, events := [], value := Res.ok none }) ∧
    (∀ m, (resolveAndCheck s model).bind (fun n => n.payload) = some m →
      spacegroupCellIsZero ((modelSymmetryGet m).map (fun sy => sy.cell)) = false →
      (tryCreateUnitcell env s model params g).events =
        [Event.commitEv true [Op.applyOp model s.nextRef Transformer.ModelUnitcell3D
          (params.getD Params.undef) [] g]] ∧
      ((tryCreateUnitcell env s model params g).value = Res.err "commit failed" ∨
       (tryCreateUnitcell env s model params g).value = Res.ok (some s.nextRef))) := by
  refine ⟨?_, ?_, ?_⟩
  · intro h
    unfold tryCreateUnitcell
    rw [h]
  · intro m h hz
    unfold tryCreateUnitcell
    rw [h]
    simp only [hz, if_pos]
  · intro m h hz
    unfold tryCreateUnitcell
    rw [h]
    simp only [hz, Bool.false_eq_true, if_false]
    constructor
    · rfl
    · by_cases he : (updateDataState env s (((Store.build s).to model).apply
        Transformer.ModelUnitcell3D (params.getD Params.undef) [] g) true).errored = true
      · left
        simp only [he, if_pos]
      · rw [Bool.not_eq_true] at he
        right
        simp only [he, Bool.false_eq_true, if_false]
        rfl

theorem C8_witness :
    (tryCreateUnitcell envA storeModelZero 1 none false = { store := storeModelZero, events := [], value := Res.ok none }) ∧
    ((tryCreateUnitcell envA storeModelSym 1 none false).events =
      [Event.commitEv true [Op.applyOp 1 2 Transformer.ModelUnitcell3D Params.undef [] false]] ∧
     ((tryCreateUnitcell envA storeModelSym 1 none false).value = Res.err "commit failed" ∨
      (tryCreateUnitcell envA storeModelSym 1 none false).value = Res.ok (some 2))) := by
  constructor
  · exact (C8_tryCreateUnitcell_guards envA storeModelZero 1 none false).2.1
      (Payload.model (some { cell := { volume := 0 }, assemblies := [] })) (by rfl) (by rfl)
  · exact (C8_tryCreateUnitcell_guards envA storeModelSym 1 none false).2.2
      (Payload.model (some { cell := { volume := 4 }, assemblies := ["1"] })) (by rfl) (by rfl)

/-- The events of `createStructure`, unconditionally. -/
theorem createStructure_events (env : Env) (s : Store) (modelRef : Nat)
    (params : Option RootStructureDef) (g : Bool) :
    (createStructure env s modelRef params g).events =
      [Event.commitEv true [Op.applyOp modelRef s.nextRef Transformer.StructureFromModel
        (Params.structureFromModel ((structureTypeDefault s modelRef params).getD
          { name := "assembly", p := [] })) [] g]] := rfl

/-- The omitted-params default of `createStructure` as an if on
`depositedDefaultApplies`. -/
theorem structureTypeDefault_none_eq (s : Store) (modelRef : Nat) :
    structureTypeDefault s modelRef none =
      if depositedDefaultApplies s modelRef then some { name := "deposited", p := [] } else none := by
  unfold structureTypeDefault depositedDefaultApplies
  rcases hr : resolveAndCheck s modelRef with - | cell
  · simp
  · dsimp only
    rcases hsy : cell.payload.bind modelSymmetryGet with - | symm
    · simp [hsy]
    · dsimp only
      by_cases ha : symm.assemblies.length = 0
      · have hnil : symm.assemblies = [] := List.length_eq_zero.mp ha
        simp [hnil]
      · have hne : symm.assemblies ≠ [] := fun h => ha (by simp [h])
        simp [ha, hne]

/-- C9: with params omitted, `createStructure` stages a deposited structure
(with empty params) exactly when the resolved model has no symmetry or an
empty assembly list, and an assembly structure (with empty params) otherwise;
caller-supplied params are staged unchanged.  `createModel` with params
omitted stages `modelIndex` 0, and caller-supplied params unchanged. -/
theorem C9_createStructure_createModel_defaults (env : Env) (s : Store) (modelRef trajectory : Nat) (g : Bool) :
    (∀ p0 : RootStructureDef, (createStructure env s modelRef (some p0) g).events =
      [Event.commitEv true [Op.applyOp modelRef s.nextRef Transformer.StructureFromModel
        (Params.structureFromModel p0) [] g]]) ∧
    ((createStructure env s modelRef none g).events =
      [Event.commitEv true [Op.applyOp modelRef s.nextRef Transformer.StructureFromModel
        (Params.structureFromModel (if depositedDefaultApplies s modelRef
          then { name := "deposited", p := [] } else { name := "assembly", p := [] })) [] g]]) ∧
    ((createModel env s trajectory none g).events =
      [Event.commitEv true [Op.applyOp trajectory s.nextRef Transformer.ModelFromTrajectory
        (Params.modelFromTrajectory 0) [] g]]) ∧
    (∀ p : Params, (createModel env s trajectory (some p) g).events =
      [Event.commitEv true [Op.applyOp trajectory s.nextRef Transformer.ModelFromTrajectory p [] g]]) := by
  refine ⟨fun p0 => rfl, ?_, rfl, fun p => rfl⟩
  rw [createStructure_events, structureTypeDefault_none_eq]
  by_cases hdep : depositedDefaultApplies s modelRef = true
  · simp [hdep]
  · rw [Bool.not_eq_true] at hdep
    simp [hdep]

/-- The events of `tryCreateComponent` are exactly one partial commit of the
upsert, with a second partial commit of the deletion in the pruned case. -/
theorem tryCreateComponent_events (env : Env) (s : Store) (a : Nat)
    (q : StructureComponentParams) (key : String) (tags : Option (List String)) :
    (tryCreateComponent env s a q key tags).events =
      [Event.commitEv false (componentBuilder s a q key tags).ops] ∨
    (tryCreateComponent env s a q key tags).events =
      [Event.commitEv false (componentBuilder s a q key tags).ops,
       Event.commitEv false [Op.deleteOp (componentBuilder s a q key tags).anchor]] := by
  unfold tryCreateComponent
  dsimp only
  split
  · right; rfl
  · left; rfl

/-- Events that are all commits satisfy any context check. -/
theorem all_eventCtxOk_of_commits (ctx : Nat) (evs : List Event)
    (h : evs.all isCommitEvent = true) : evs.all (eventCtxOk ctx) = true := by
  rw [List.all_eq_true] at *
  intro e he
  have := h e he
  cases e with
  | commitEv rev ops => rfl
  | getSelectionCall c => cases this
  | ensurePropsCall c => cases this

theorem tryCreateComponent_events_commits (env : Env) (s : Store) (a : Nat)
    (q : StructureComponentParams) (key : String) (tags : Option (List String)) :
    (tryCreateComponent env s a q key tags).events.all isCommitEvent = true := by
  rcases tryCreateComponent_events env s a q key tags with h | h
  · rw [h]; rfl
  · rw [h]; rfl

/-- C7: `tryCreateComponentFromSelection` is the run of one named task,
`Query Component`, and every suspend-point event of a run (the selection
resolution and the custom-property step) carries that run's own task
context. -/
theorem C7_query_component_task (env : Env) (s : Store) (a : Nat)
    (selection : StructureSelectionQuery) (key : String)
    (params : Option ComponentWrapperParams) (ctx : Nat) :
    (tryCreateComponentFromSelectionTask env s a selection key params).name = "Query Component" ∧
    ((tryCreateComponentFromSelectionTask env s a selection key params).run ctx).events.all
      (eventCtxOk ctx) = true ∧
    tryCreateComponentFromSelection env s a selection key params ctx =
      (tryCreateComponentFromSelectionTask env s a selection key params).run ctx := by
  refine ⟨rfl, ?_, rfl⟩
  unfold tryCreateComponentFromSelectionTask
  dsimp only
  rcases h : (resolveAndCheck s a).bind (fun n => n.payload) with - | sd
  · rfl
  · dsimp only
    rw [List.all_append, List.all_append]
    have h1 : (if selection.referencesCurrent then [Event.getSelectionCall ctx] else []).all
        (eventCtxOk ctx) = true := by
      by_cases hc : selection.referencesCurrent = true
      · simp [hc, eventCtxOk]
      · rw [Bool.not_eq_true] at hc
        simp [hc]
    have h2 : (if selection.hasEnsureCustomProperties then [Event.ensurePropsCall ctx] else []).all
        (eventCtxOk ctx) = true := by
      by_cases hc : selection.hasEnsureCustomProperties = true
      · simp [hc, eventCtxOk]
      · rw [Bool.not_eq_true] at hc
        simp [hc]
    have h3 := all_eventCtxOk_of_commits ctx _ (tryCreateComponent_events_commits env s a
      (selectionTransformParams env selection (wrapperLabel params) ctx sd) key
      (params.bind (fun p => p.tags)))
    rw [h1, h2, h3]
    rfl

/-- The component upsert stages exactly one operation: an insert carrying the
combined tag list when no child of the anchor carries the key tag, or an
in-place param replacement of that child otherwise. -/
theorem componentBuilder_ops (s : Store) (a : Nat) (q : StructureComponentParams)
    (key : String) (tags : Option (List String)) :
    (s.nodes.find? (fun n => n.parent == a && hasTag n.tags (componentKeyTag key)) = none ∧
      (componentBuilder s a q key tags).ops =
        [Op.applyOp a s.nextRef Transformer.StructureComponent (Params.structureComponent q)
          (componentAllTags key tags) false] ∧
      (componentBuilder s a q key tags).anchor = s.nextRef) ∨
    (∃ c, s.nodes.find? (fun n => n.parent == a && hasTag n.tags (componentKeyTag key)) = some c ∧
      (componentBuilder s a q key tags).ops = [Op.updateOp c.ref (Params.structureComponent q)] ∧
      (componentBuilder s a q key tags).anchor = c.ref) := by
  unfold componentBuilder Builder.applyOrUpdateTagged
  dsimp only [Store.build, Builder.to]
  rcases hf : s.nodes.find? (fun n => n.parent == a && hasTag n.tags (componentKeyTag key)) with - | c
  · refine Or.inl ⟨hf, ?_, ?_⟩ <;> (rw [hf]; try rfl)
  · refine Or.inr ⟨c, hf, ?_, ?_⟩ <;> (rw [hf]; try rfl)

/-- The first commit of `tryCreateComponent` stages the caller's component
params. -/
theorem tryCreateComponent_firstCommitParams (env : Env) (s : Store) (a : Nat)
    (q : StructureComponentParams) (key : String) (tags : Option (List String)) :
    firstCommitParams (tryCreateComponent env s a q key tags).events =
      some (Params.structureComponent q) := by
  rcases tryCreateComponent_events env s a q key tags with h | h <;> rw [h] <;>
    rcases componentBuilder_ops s a q key tags with ⟨-, hop, -⟩ | ⟨c, -, hop, -⟩ <;>
      simp [firstCommitParams, firstCommitOps, hop, Op.stagedParams]

theorem firstCommitOps_cons_noncommit (e : Event) (evs : List Event)
    (h : isCommitEvent e = false) :
    firstCommitOps (e :: evs) = firstCommitOps evs := by
  cases e with
  | commitEv rev ops => simp [isCommitEvent] at h
  | getSelectionCall c => rfl
  | ensurePropsCall c => rfl

/-- C10: the tag list staged by `tryCreateComponent` carries the generic
component tag and the derived key tag on top of all caller tags, and the
insert branch creates the node with exactly that tag list; each wrapper
(`tryCreateComponentFromExpression`, `tryCreateComponentStatic`,
`tryCreateComponentFromSelection`) stages component params with `nullIfEmpty`
true and the trimmed caller label (the selection wrapper falling back to the
selection's label when the trimmed label is empty). -/
theorem C10_component_tags_and_wrapper_params (env : Env) (s : Store) (a e : Nat)
    (ty key : String) (q : StructureComponentParams) (tags : Option (List String))
    (p : Option ComponentWrapperParams) (selection : StructureSelectionQuery) (ctx : Nat) :
    (hasTag (componentAllTags key tags) StructureBuilderTags.Component = true ∧
     hasTag (componentAllTags key tags) (componentKeyTag key) = true ∧
     (tags.getD []).all (fun t => hasTag (componentAllTags key tags) t) = true) ∧
    (s.nodes.find? (fun n => n.parent == a && hasTag n.tags (componentKeyTag key)) = none →
      (componentBuilder s a q key tags).ops =
        [Op.applyOp a s.nextRef Transformer.StructureComponent (Params.structureComponent q)
          (componentAllTags key tags) false]) ∧
    (firstCommitParams (tryCreateComponentFromExpression env s a e key p).events =
      some (Params.structureComponent
        { type := ComponentTypeSel.expression e, nullIfEmpty := true, label := wrapperLabel p })) ∧
    (firstCommitParams (tryCreateComponentStatic env s a ty key p).events =
      some (Params.structureComponent
        { type := ComponentTypeSel.staticT ty, nullIfEmpty := true, label := wrapperLabel p })) ∧
    (∀ sd, (resolveAndCheck s a).bind (fun n => n.payload) = some sd →
      firstCommitParams (tryCreateComponentFromSelection env s a selection key p ctx).events =
        some (Params.structureComponent
          (selectionTransformParams env selection (wrapperLabel p) ctx sd))) ∧
    (∀ sd, (selectionTransformParams env selection (wrapperLabel p) ctx sd).nullIfEmpty = true ∧
      (selectionTransformParams env selection (wrapperLabel p) ctx sd).label =
        (if wrapperLabel p == "" then selection.label else wrapperLabel p)) := by
  refine ⟨⟨?_, ?_, ?_⟩, ?_, ?_, ?_, ?_, ?_⟩
  · rw [hasTag_iff]
    rcases tags with - | ts <;> simp [componentAllTags]
  · rw [hasTag_iff]
    rcases tags with - | ts <;> simp [componentAllTags]
  · rw [List.all_eq_true]
    intro t ht
    rw [hasTag_iff]
    rcases tags with - | ts
    · simp at ht
    · simp at ht
      simp [componentAllTags, ht]
  · intro h
    rcases componentBuilder_ops s a q key tags with ⟨-, hop, -⟩ | ⟨c, hc, -, -⟩
    · exact hop
    · rw [h] at hc
      cases hc
  · exact tryCreateComponent_firstCommitParams env s a _ key _
  · exact tryCreateComponent_firstCommitParams env s a _ key _
  · intro sd hsd
    unfold tryCreateComponentFromSelection tryCreateComponentFromSelectionTask
    dsimp only
    rw [hsd]
    dsimp only
    unfold firstCommitParams
    have hskip : ∀ evs : List Event,
        firstCommitOps ((if selection.referencesCurrent then [Event.getSelectionCall ctx] else []) ++
          (if selection.hasEnsureCustomProperties then [Event.ensurePropsCall ctx] else []) ++ evs) =
        firstCommitOps evs := by
      intro evs
      by_cases h1 : selection.referencesCurrent = true <;>
        by_cases h2 : selection.hasEnsureCustomProperties = true <;>
          simp [h1, h2, firstCommitOps_cons_noncommit, isCommitEvent]
    rw [hskip]
    have := tryCreateComponent_firstCommitParams env s a
      (selectionTransformParams env selection (wrapperLabel p) ctx sd) key
      (p.bind (fun w => w.tags))
    unfold firstCommitParams at this
    exact this
  · intro sd
    unfold selectionTransformParams
    by_cases hc : selection.referencesCurrent = true
    · simp [hc]
    · rw [Bool.not_eq_true] at hc
      simp [hc]

theorem C10_witness :
    hasTag (componentAllTags "k" none) StructureBuilderTags.Component = true ∧
    (componentBuilder storeStruct 1 qWater "k" none).ops =
      [Op.applyOp 1 2 Transformer.StructureComponent (Params.structureComponent qWater)
        (componentAllTags "k" none) false] ∧
    firstCommitParams (tryCreateComponentFromSelection envA storeStruct 1 selCurrent "k" none 9).events =
      some (Params.structureComponent
        (selectionTransformParams envA selCurrent (wrapperLabel none) 9 (Payload.molStructure 5))) := by
  have h := C10_component_tags_and_wrapper_params envA storeStruct 1 5 "x" "k" qWater none none selCurrent 9
  exact ⟨h.1.1, h.2.1 (by rfl), h.2.2.2.2.1 (Payload.molStructure 5) (by rfl)⟩

/-- C1: after the component upsert's commit, if the commit failed (the
selector is not ok) or the committed payload is empty (`elementCount` zero),
a second, independent commit deletes the node (it resolves to nothing
afterwards) and the call returns undefined; otherwise no deletion happens,
the store is exactly the committed store and the call returns the selector of
the committed node. -/
theorem C1_prune_if_empty (env : Env) (s : Store) (a : Nat)
    (q : StructureComponentParams) (key : String) (tags : Option (List String)) :
    ((!(selectorIsOk (updateDataState env s (componentBuilder s a q key tags) false).selectors
        (componentBuilder s a q key tags).anchor) ||
      elementCountIsZero (payloadAt
        (updateDataState env s (componentBuilder s a q key tags) false).store
        (componentBuilder s a q key tags).anchor)) = true →
      (tryCreateComponent env s a q key tags).value = none ∧
      (tryCreateComponent env s a q key tags).store.resolve
        (componentBuilder s a q key tags).anchor = none ∧
      (tryCreateComponent env s a q key tags).events =
        [Event.commitEv false (componentBuilder s a q key tags).ops,
         Event.commitEv false [Op.deleteOp (componentBuilder s a q key tags).anchor]]) ∧
    ((!(selectorIsOk (updateDataState env s (componentBuilder s a q key tags) false).selectors
        (componentBuilder s a q key tags).anchor) ||
      elementCountIsZero (payloadAt
        (updateDataState env s (componentBuilder s a q key tags) false).store
        (componentBuilder s a q key tags).anchor)) = false →
      (tryCreateComponent env s a q key tags).value =
        some (componentBuilder s a q key tags).anchor ∧
      (tryCreateComponent env s a q key tags).store =
        (updateDataState env s (componentBuilder s a q key tags) false).store ∧
      (tryCreateComponent env s a q key tags).events =
        [Event.commitEv false (componentBuilder s a q key tags).ops]) := by
  constructor
  · intro h
    simp only [payloadAt] at h
    unfold tryCreateComponent
    dsimp only
    rw [h]
    refine ⟨rfl, ?_, rfl⟩
    exact resolve_after_delete env _ _
  · intro h
    simp only [payloadAt] at h
    unfold tryCreateComponent
    dsimp only
    rw [h]
    exact ⟨rfl, rfl, rfl⟩

theorem C1_witness :
    ((tryCreateComponent envA storeStruct 1 qEmpty "k" none).value = none ∧
     (tryCreateComponent envA storeStruct 1 qEmpty "k" none).store.resolve 2 = none) ∧
    ((tryCreateComponent envA storeStruct 1 qFail "k" none).value = none ∧
     (tryCreateComponent envA storeStruct 1 qFail "k" none).store.resolve 2 = none) ∧
    (tryCreateComponent envA storeStruct 1 qWater "k" none).value = some 2 := by
  have h1 := (C1_prune_if_empty envA storeStruct 1 qEmpty "k" none).1 (by decide)
  have h2 := (C1_prune_if_empty envA storeStruct 1 qFail "k" none).1 (by decide)
  have h3 := (C1_prune_if_empty envA storeStruct 1 qWater "k" none).2 (by decide)
  exact ⟨⟨h1.1, h1.2.1⟩, ⟨h2.1, h2.2.1⟩, h3.1⟩

/-! ### Forward computation lemmas for single-operation commits -/

theorem updateDataState_false_eq (env : Env) (s : Store) (b : Builder) :
    updateDataState env s b false =
      { store := (commitOps env s b.ops).1, selectors := (commitOps env s b.ops).2,
        errored := false } := by
  unfold updateDataState
  simp

theorem commitOps_single (env : Env) (s : Store) (op : Op) :
    commitOps env s [op] = ((applyOne env s op).1, [(applyOne env s op).2]) := rfl

theorem applyOne_applyOp_ok (env : Env) (s : Store) (parent newRef : Nat) (tr : Transformer)
    (params : Params) (tags : List String) (ghost : Bool) (app pl : Payload)
    (hpp : (s.resolve parent).bind (fun n => n.payload) = some app)
    (hprod : env.produce tr params app = Res.ok pl) :
    applyOne env s (Op.applyOp parent newRef tr params tags ghost) =
      ({ nodes := s.nodes ++
           [{ ref := newRef, parent := parent, transformer := tr, params := params,
              tags := tags, lifecycle := Lifecycle.ok, payload := some pl, isGhost := ghost }],
         nextRef := max s.nextRef (newRef + 1) }, { ref := newRef, isOk := true }) := by
  unfold applyOne
  dsimp only
  rw [hpp]
  dsimp only
  rw [hprod]

theorem applyOne_applyOp_err (env : Env) (s : Store) (parent newRef : Nat) (tr : Transformer)
    (params : Params) (tags : List String) (ghost : Bool)
    (hfail : ∀ app, (s.resolve parent).bind (fun n => n.payload) = some app →
      Res.isOk (env.produce tr params app) = false) :
    applyOne env s (Op.applyOp parent newRef tr params tags ghost) =
      ({ nodes := s.nodes ++
           [{ ref := newRef, parent := parent, transformer := tr, params := params,
              tags := tags, lifecycle := Lifecycle.errored, payload := none, isGhost := ghost }],
         nextRef := max s.nextRef (newRef + 1) }, { ref := newRef, isOk := false }) := by
  unfold applyOne
  dsimp only
  rcases hpp : (s.resolve parent).bind (fun n => n.payload) with - | app
  · rfl
  · dsimp only
    rcases hprod : env.produce tr params app with pl | e
    · have := hfail app hpp
      rw [hprod] at this
      cases this
    · rfl

theorem applyOne_updateOp_ok (env : Env) (s : Store) (r : Nat) (c : Node)
    (params : Params) (app pl : Payload)
    (hres : s.resolve r = some c)
    (hpp : (s.resolve c.parent).bind (fun n => n.payload) = some app)
    (hprod : env.produce c.transformer params app = Res.ok pl) :
    applyOne env s (Op.updateOp r params) =
      ({ nodes := replaceNode s.nodes r
                    (fun m => { m with params := params, lifecycle := Lifecycle.ok, payload := some pl }),
         nextRef := s.nextRef },
       { ref := r, isOk := true }) := by
  unfold applyOne
  dsimp only
  rw [hres]
  dsimp only
  rw [hpp]
  dsimp only
  rw [hprod]

theorem applyOne_deleteOp_leaf (env : Env) (s : Store) (r : Nat)
    (hnc : ∀ n ∈ s.nodes, n.parent ≠ r) :
    applyOne env s (Op.deleteOp r) =
      ({ s with nodes := s.nodes.filter (fun n => !(n.ref == r)) }, { ref := r, isOk := true }) := by
  unfold applyOne
  dsimp only
  have hsub : subtreeRefs s.nodes r = [r] := by
    unfold subtreeRefs
    apply subtreeFuel_fixed
    intro n hn hp
    simp at hp
    exact absurd hp (hnc n hn)
  rw [hsub]
  have hfil : s.nodes.filter (fun n => !(List.contains [r] n.ref)) =
      s.nodes.filter (fun n => !(n.ref == r)) := by
    apply List.filter_congr
    intro n _
    cases h : n.ref == r <;> simp [List.contains, List.elem, h]
  rw [hfil]

/-- `replaceNode` preserves the reference list. -/
theorem refs_replaceNode (l : List Node) (r : Nat) (g : Node → Node)
    (hg : ∀ n, (g n).ref = n.ref) :
    (replaceNode l r g).map (fun n => n.ref) = l.map (fun n => n.ref) := by
  unfold replaceNode
  rw [List.map_map]
  apply List.map_congr_left
  intro n _
  by_cases hn : n.ref = r
  · simp [hn, hg]
  · simp [hn]

/-- Resolution in a replaced store. -/
theorem resolve_replaceNode (l : List Node) (r : Nat) (g : Node → Node) (a : Nat)
    (hg : ∀ n, (g n).ref = n.ref) :
    (replaceNode l r g).find? (fun n => n.ref == a) =
      (l.find? (fun n => n.ref == a)).map (fun n => if n.ref == r then g n else n) := by
  unfold replaceNode
  apply find?_map_pred
  intro n
  by_cases hn : n.ref = r
  · simp [hn, hg]
  · simp [hn]

/-- Tag-and-parent filtering in a replaced store, for updates that preserve
parent and tags. -/
theorem filter_replaceNode_pred (l : List Node) (r : Nat) (g : Node → Node)
    (p : Node → Bool)
    (hg : ∀ n, p (g n) = p n) :
    (replaceNode l r g).filter p =
      (l.filter p).map (fun n => if n.ref == r then g n else n) := by
  unfold replaceNode
  apply filter_map_pred
  intro n
  by_cases hn : n.ref = r
  · simp [hn, hg]
  · simp [hn]

/-- The key tag is among the staged component tags. -/
theorem hasTag_allTags_keyTag (key : String) (tags : Option (List String)) :
    hasTag (componentAllTags key tags) (componentKeyTag key) = true := by
  rw [hasTag_iff]
  rcases tags with - | ts <;> simp [componentAllTags]

/-- The generic component tag is among the staged component tags. -/
theorem hasTag_allTags_component (key : String) (tags : Option (List String)) :
    hasTag (componentAllTags key tags) StructureBuilderTags.Component = true := by
  rw [hasTag_iff]
  rcases tags with - | ts <;> simp [componentAllTags]

/-- Component creation on a fresh key whose production succeeds with payload
`pl`: the node is appended with the combined tags and the call returns its
selector. -/
theorem tryCreateComponent_insert_ok (env : Env) (s : Store) (a : Nat)
    (q : StructureComponentParams) (key : String) (tags : Option (List String)) (app pl : Payload)
    (hrefs : ∀ n ∈ s.nodes, n.ref < s.nextRef)
    (hanchor : payloadAt s a = some app)
    (hno : s.nodes.find? (fun n => n.parent == a && hasTag n.tags (componentKeyTag key)) = none)
    (hok : env.produce Transformer.StructureComponent (Params.structureComponent q) app = Res.ok pl)
    (hne : elementCountIsZero (some pl) = false) :
    tryCreateComponent env s a q key tags =
      { store := { nodes := s.nodes ++ [mkComponentNode s a q key tags Lifecycle.ok (some pl)],
                   nextRef := s.nextRef + 1 },
        events := [Event.commitEv false [Op.applyOp a s.nextRef Transformer.StructureComponent
          (Params.structureComponent q) (componentAllTags key tags) false]],
        value := some s.nextRef } := by
  rcases componentBuilder_ops s a q key tags with ⟨-, hops, hanch⟩ | ⟨c, hc, -, -⟩
  · have hmax : max s.nextRef (s.nextRef + 1) = s.nextRef + 1 :=
      Nat.max_eq_right (Nat.le_succ _)
    have hud : updateDataState env s (componentBuilder s a q key tags) false =
        { store := { nodes := s.nodes ++ [mkComponentNode s a q key tags Lifecycle.ok (some pl)],
                     nextRef := s.nextRef + 1 },
          selectors := [{ ref := s.nextRef, isOk := true }], errored := false } := by
      rw [updateDataState_false_eq, hops, commitOps_single,
        applyOne_applyOp_ok env s a s.nextRef Transformer.StructureComponent
          (Params.structureComponent q) (componentAllTags key tags) false app pl hanchor hok]
      rw [hmax]
      rfl
    have hsel : selectorIsOk [{ ref := s.nextRef, isOk := true }] s.nextRef = true := by
      simp [selectorIsOk]
    have hrn : List.find? (fun n => n.ref == s.nextRef) s.nodes = none := by
      rw [List.find?_eq_none]
      intro n hn
      have := hrefs n hn
      simp only [beq_iff_eq]
      omega
    have hcond : (!(selectorIsOk
          (updateDataState env s (componentBuilder s a q key tags) false).selectors
          (componentBuilder s a q key tags).anchor) ||
        elementCountIsZero
          (((updateDataState env s (componentBuilder s a q key tags) false).store.resolve
            (componentBuilder s a q key tags).anchor).bind (fun n => n.payload))) = false := by
      rw [hud, hanch]
      dsimp only
      rw [hsel]
      simp only [Store.resolve]
      rw [find?_append_none _ _ _ hrn]
      rw [List.find?_cons_of_pos _ (by simp [mkComponentNode])]
      dsimp only [mkComponentNode, Option.bind]
      rw [hne]
      rfl
    unfold tryCreateComponent
    dsimp only
    rw [hcond, hud, hanch, hops]
    rfl
  · rw [hno] at hc
    cases hc

/-- A partial commit of a single leaf deletion. -/
theorem updateDataState_delete (env : Env) (s : Store) (r : Nat)
    (hnc : ∀ n ∈ s.nodes, n.parent ≠ r) :
    updateDataState env s ((Store.build s).delete r) false =
      { store := { nodes := s.nodes.filter (fun n => !(n.ref == r)), nextRef := s.nextRef },
        selectors := [{ ref := r, isOk := true }], errored := false } := by
  rw [updateDataState_false_eq]
  have hops : ((Store.build s).delete r).ops = [Op.deleteOp r] := rfl
  rw [hops, commitOps_single, applyOne_deleteOp_leaf env s r hnc]

/-- Component creation on a fresh key whose production fails: the errored
node is created by the first partial commit and removed again by the second;
the call returns undefined, the sibling nodes are untouched and only a
reference is burnt. -/
theorem tryCreateComponent_insert_fail (env : Env) (s : Store) (a : Nat)
    (q : StructureComponentParams) (key : String) (tags : Option (List String))
    (hrefs : ∀ n ∈ s.nodes, n.ref < s.nextRef)
    (hpars : ∀ n ∈ s.nodes, n.parent < s.nextRef)
    (hna : a ≠ s.nextRef)
    (hno : s.nodes.find? (fun n => n.parent == a && hasTag n.tags (componentKeyTag key)) = none)
    (hfail : ∀ pl, Res.isOk (env.produce Transformer.StructureComponent
      (Params.structureComponent q) pl) = false) :
    tryCreateComponent env s a q key tags =
      { store := { nodes := s.nodes, nextRef := s.nextRef + 1 },
        events := [Event.commitEv false [Op.applyOp a s.nextRef Transformer.StructureComponent
            (Params.structureComponent q) (componentAllTags key tags) false],
          Event.commitEv false [Op.deleteOp s.nextRef]],
        value := none } := by
  rcases componentBuilder_ops s a q key tags with ⟨-, hops, hanch⟩ | ⟨c, hc, -, -⟩
  · have hmax : max s.nextRef (s.nextRef + 1) = s.nextRef + 1 :=
      Nat.max_eq_right (Nat.le_succ _)
    have hud : updateDataState env s (componentBuilder s a q key tags) false =
        { store := { nodes := s.nodes ++ [mkComponentNode s a q key tags Lifecycle.errored none],
                     nextRef := s.nextRef + 1 },
          selectors := [{ ref := s.nextRef, isOk := false }], errored := false } := by
      rw [updateDataState_false_eq, hops, commitOps_single,
        applyOne_applyOp_err env s a s.nextRef Transformer.StructureComponent
          (Params.structureComponent q) (componentAllTags key tags) false
          (fun app _ => hfail app)]
      rw [hmax]
      rfl
    have hsel : selectorIsOk [{ ref := s.nextRef, isOk := false }] s.nextRef = false := by
      simp [selectorIsOk]
    have hcond : (!(selectorIsOk
          (updateDataState env s (componentBuilder s a q key tags) false).selectors
          (componentBuilder s a q key tags).anchor) ||
        elementCountIsZero
          (((updateDataState env s (componentBuilder s a q key tags) false).store.resolve
            (componentBuilder s a q key tags).anchor).bind (fun n => n.payload))) = true := by
      rw [hud, hanch]
      dsimp only
      rw [hsel]
      rfl
    have hnc : ∀ n ∈ (s.nodes ++ [mkComponentNode s a q key tags Lifecycle.errored none]),
        n.parent ≠ s.nextRef := by
      intro n hn
      rcases List.mem_append.mp hn with h | h
      · have := hpars n h
        omega
      · rw [List.mem_singleton] at h
        subst h
        exact hna
    have hdel := updateDataState_delete env
      { nodes := s.nodes ++ [mkComponentNode s a q key tags Lifecycle.errored none],
        nextRef := s.nextRef + 1 } s.nextRef hnc
    have hfil : (s.nodes ++ [mkComponentNode s a q key tags Lifecycle.errored none]).filter
        (fun n => !(n.ref == s.nextRef)) = s.nodes := by
      rw [List.filter_append]
      have h1 : s.nodes.filter (fun n => !(n.ref == s.nextRef)) = s.nodes := by
        rw [List.filter_eq_self]
        intro n hn
        have hlt := hrefs n hn
        have hb : (n.ref == s.nextRef) = false := by
          rw [beq_eq_false_iff_ne]
          omega
        rw [hb]
        rfl
      have h2 : [mkComponentNode s a q key tags Lifecycle.errored none].filter
          (fun n => !(n.ref == s.nextRef)) = [] := by
        simp [mkComponentNode]
      rw [h1, h2]
      simp
    unfold tryCreateComponent
    dsimp only
    rw [hcond, hud, hanch, hops, hdel, hfil]
    rfl
  · rw [hno] at hc
    cases hc

/-- Component upsert on a key whose tagged child already exists, with
successful non-empty production: the child is updated in place (same
reference, new params) and its selector is returned. -/
theorem tryCreateComponent_update_ok (env : Env) (s : Store) (a : Nat)
    (q : StructureComponentParams) (key : String) (tags : Option (List String))
    (c : Node) (app pl : Payload)
    (hnd : (s.nodes.map (fun n => n.ref)).Nodup)
    (hfind : s.nodes.find? (fun n => n.parent == a && hasTag n.tags (componentKeyTag key)) = some c)
    (hpp : (s.resolve c.parent).bind (fun n => n.payload) = some app)
    (hprod : env.produce c.transformer (Params.structureComponent q) app = Res.ok pl)
    (hne : elementCountIsZero (some pl) = false) :
    tryCreateComponent env s a q key tags =
      { store := { nodes := replaceNode s.nodes c.ref (updComponentNode q pl),
                   nextRef := s.nextRef },
        events := [Event.commitEv false [Op.updateOp c.ref (Params.structureComponent q)]],
        value := some c.ref } := by
  rcases componentBuilder_ops s a q key tags with ⟨hn, -, -⟩ | ⟨c2, hc2, hops, hanch⟩
  · rw [hfind] at hn
    cases hn
  · rw [hfind] at hc2
    injection hc2 with hc2
    subst hc2
    have hres : s.resolve c.ref = some c :=
      resolve_of_mem_nodup hnd (List.mem_of_find?_eq_some hfind)
    have hud : updateDataState env s (componentBuilder s a q key tags) false =
        { store := { nodes := replaceNode s.nodes c.ref (updComponentNode q pl),
                     nextRef := s.nextRef },
          selectors := [{ ref := c.ref, isOk := true }], errored := false } := by
      rw [updateDataState_false_eq, hops, commitOps_single,
        applyOne_updateOp_ok env s c.ref c (Params.structureComponent q) app pl hres hpp hprod]
      rfl
    have hsel : selectorIsOk [{ ref := c.ref, isOk := true }] c.ref = true := by
      simp [selectorIsOk]
    have hfindr : List.find? (fun n => n.ref == c.ref) s.nodes = some c := hres
    have hres2 : ({ nodes := replaceNode s.nodes c.ref (updComponentNode q pl), nextRef := s.nextRef } : Store).resolve c.ref = some (updComponentNode q pl c) := by
      unfold Store.resolve
      dsimp only
      rw [resolve_replaceNode s.nodes c.ref (updComponentNode q pl) c.ref (fun n => rfl), hfindr]
      simp
    have hcond : (!(selectorIsOk
          (updateDataState env s (componentBuilder s a q key tags) false).selectors
          (componentBuilder s a q key tags).anchor) ||
        elementCountIsZero
          (((updateDataState env s (componentBuilder s a q key tags) false).store.resolve
            (componentBuilder s a q key tags).anchor).bind (fun n => n.payload))) = false := by
      rw [hud, hanch]
      dsimp only
      rw [hsel]
      rw [hres2]
      dsimp only [updComponentNode, Option.bind]
      rw [hne]
      rfl
    unfold tryCreateComponent
    dsimp only
    rw [hcond, hud, hanch, hops]
    rfl

/-- C4: component creation is committed with no explicit revert flag and so
defaults to partial commit: for a structure with two independently keyed
components where the second component's production fails, the first
component's node remains present and Ok, the failing component ends absent
(pruned), and every commit submitted by either call is a partial commit. -/
theorem C4_partial_commit_component_isolation (env : Env) (s : Store) (a : Nat)
    (q1 q2 : StructureComponentParams) (key1 key2 : String) (app pl1 : Payload)
    (hWF : Store.WF s)
    (hanchor : payloadAt s a = some app)
    (hno1 : s.nodes.find? (fun n => n.parent == a && hasTag n.tags (componentKeyTag key1)) = none)
    (hno2 : s.nodes.find? (fun n => n.parent == a && hasTag n.tags (componentKeyTag key2)) = none)
    (hkeys : componentKeyTag key2 ≠ componentKeyTag key1)
    (h1ok : env.produce Transformer.StructureComponent (Params.structureComponent q1) app = Res.ok pl1)
    (h1ne : elementCountIsZero (some pl1) = false)
    (h2fail : ∀ pl, Res.isOk (env.produce Transformer.StructureComponent
      (Params.structureComponent q2) pl) = false) :
    (tryCreateComponent env s a q1 key1 none).value = some s.nextRef ∧
    (tryCreateComponent env (tryCreateComponent env s a q1 key1 none).store a q2 key2 none).value =
      none ∧
    (tryCreateComponent env (tryCreateComponent env s a q1 key1 none).store
      a q2 key2 none).store.resolve s.nextRef =
      some (mkComponentNode s a q1 key1 none Lifecycle.ok (some pl1)) ∧
    (tryCreateComponent env (tryCreateComponent env s a q1 key1 none).store
      a q2 key2 none).store.nodes.find?
      (fun n => n.parent == a && hasTag n.tags (componentKeyTag key2)) = none ∧
    ((tryCreateComponent env s a q1 key1 none).events ++
      (tryCreateComponent env (tryCreateComponent env s a q1 key1 none).store
        a q2 key2 none).events).all isPartialCommit = true := by
  obtain ⟨hnd, hrefs, hpars, hself⟩ := hWF
  have hr1 := tryCreateComponent_insert_ok env s a q1 key1 none app pl1 hrefs hanchor hno1 h1ok h1ne
  have halt : a < s.nextRef := by
    unfold payloadAt Store.resolve at hanchor
    rcases hf : List.find? (fun n => n.ref == a) s.nodes with - | anc
    · rw [hf] at hanchor
      cases hanchor
    · have hmem := List.mem_of_find?_eq_some hf
      have hbe := List.find?_some hf
      have hra : anc.ref = a := by simpa using hbe
      have := hrefs anc hmem
      omega
  have htag : hasTag (componentAllTags key1 none) (componentKeyTag key2) = false := by
    unfold componentAllTags hasTag
    simp only [List.any_cons, List.any_nil, Bool.or_false, Bool.or_eq_false_iff]
    constructor
    · rw [beq_eq_false_iff_ne]
      intro h
      exact componentKeyTag_ne_component key2 h.symm
    · rw [beq_eq_false_iff_ne]
      intro h
      exact hkeys h.symm
  have hrn : List.find? (fun n => n.ref == s.nextRef) s.nodes = none := by
    rw [List.find?_eq_none]
    intro n hn
    have := hrefs n hn
    simp only [beq_iff_eq]
    omega
  have hno2' : (s.nodes ++ [mkComponentNode s a q1 key1 none Lifecycle.ok (some pl1)]).find?
      (fun n => n.parent == a && hasTag n.tags (componentKeyTag key2)) = none := by
    rw [find?_append_none _ _ _ hno2]
    rw [List.find?_cons_of_neg, List.find?_nil]
    simp [mkComponentNode, htag]
  have hrefs1 : ∀ n ∈ (s.nodes ++ [mkComponentNode s a q1 key1 none Lifecycle.ok (some pl1)]),
      n.ref < s.nextRef + 1 := by
    intro n hn
    rcases List.mem_append.mp hn with h | h
    · have := hrefs n h
      omega
    · rw [List.mem_singleton] at h
      subst h
      simp [mkComponentNode]
  have hpars1 : ∀ n ∈ (s.nodes ++ [mkComponentNode s a q1 key1 none Lifecycle.ok (some pl1)]),
      n.parent < s.nextRef + 1 := by
    intro n hn
    rcases List.mem_append.mp hn with h | h
    · have := hpars n h
      omega
    · rw [List.mem_singleton] at h
      subst h
      simp only [mkComponentNode]
      omega
  have hna2 : a ≠ s.nextRef + 1 := by omega
  have hr2 := tryCreateComponent_insert_fail env
    { nodes := s.nodes ++ [mkComponentNode s a q1 key1 none Lifecycle.ok (some pl1)],
      nextRef := s.nextRef + 1 } a q2 key2 none hrefs1 hpars1 hna2 hno2' h2fail
  have hcall2 : tryCreateComponent env (tryCreateComponent env s a q1 key1 none).store
      a q2 key2 none =
      { store := { nodes := s.nodes ++ [mkComponentNode s a q1 key1 none Lifecycle.ok (some pl1)],
                   nextRef := s.nextRef + 2 },
        events := [Event.commitEv false [Op.applyOp a (s.nextRef + 1)
            Transformer.StructureComponent (Params.structureComponent q2)
            (componentAllTags key2 none) false],
          Event.commitEv false [Op.deleteOp (s.nextRef + 1)]],
        value := none } := by
    rw [hr1]
    exact hr2
  refine ⟨?_, ?_, ?_, ?_, ?_⟩
  · rw [hr1]
  · rw [hcall2]
  · rw [hcall2]
    unfold Store.resolve
    dsimp only
    rw [find?_append_none _ _ _ hrn]
    rw [List.find?_cons_of_pos _ (by simp [mkComponentNode])]
  · rw [hcall2]
    exact hno2'
  · rw [hcall2, hr1]
    rfl

theorem C4_witness :
    (tryCreateComponent envA storeStruct 1 qWater "water" none).value = some 2 ∧
    (tryCreateComponent envA (tryCreateComponent envA storeStruct 1 qWater "water" none).store
      1 qFail "ligand" none).value = none ∧
    (tryCreateComponent envA (tryCreateComponent envA storeStruct 1 qWater "water" none).store
      1 qFail "ligand" none).store.resolve 2 =
      some (mkComponentNode storeStruct 1 qWater "water" none Lifecycle.ok
        (some (Payload.molStructure 3))) ∧
    (tryCreateComponent envA (tryCreateComponent envA storeStruct 1 qWater "water" none).store
      1 qFail "ligand" none).store.nodes.find?
      (fun n => n.parent == 1 && hasTag n.tags (componentKeyTag "ligand")) = none := by
  have h := C4_partial_commit_component_isolation envA storeStruct 1 qWater qFail "water" "ligand"
    (Payload.molStructure 5) (Payload.molStructure 3)
    (by unfold Store.WF; decide) (by rfl) (by rfl) (by rfl) (by decide) (by rfl) (by rfl)
    (fun pl => by rfl)
  exact ⟨h.1, h.2.1, h.2.2.1, h.2.2.2.1⟩

/-- Extract the anchor node from a resolved payload. -/
theorem resolve_of_payloadAt {s : Store} {a : Nat} {app : Payload}
    (h : payloadAt s a = some app) :
    ∃ anc, s.resolve a = some anc ∧ anc.payload = some app ∧ anc.ref = a ∧ anc ∈ s.nodes := by
  unfold payloadAt at h
  rcases hf : s.resolve a with - | anc
  · rw [hf] at h
    cases h
  · rw [hf] at h
    refine ⟨anc, rfl, h, ?_, List.mem_of_find?_eq_some hf⟩
    have := List.find?_some hf
    simpa using this

/-- No stored node carries the fresh reference. -/
theorem find?_ref_fresh {s : Store} (hrefs : ∀ n ∈ s.nodes, n.ref < s.nextRef) :
    List.find? (fun n => n.ref == s.nextRef) s.nodes = none := by
  rw [List.find?_eq_none]
  intro n hn
  have := hrefs n hn
  simp only [beq_iff_eq]
  omega

/-- C3, counterexample to the claim as stated: with key `k`, params `qWater`
then params `qEmpty` (whose production yields an empty component), the second
call prunes the node, so afterwards there are zero (not exactly one) children
of the anchor carrying the tag-key, and the second call returns no node. -/
theorem C3_counterexample :
    ((tryCreateComponent envA (tryCreateComponent envA storeStruct 1 qWater "k" none).store
        1 qEmpty "k" none).store.nodes.filter
      (fun n => n.parent == 1 && hasTag n.tags (componentKeyTag "k"))).length = 0 ∧
    (tryCreateComponent envA (tryCreateComponent envA storeStruct 1 qWater "k" none).store
      1 qEmpty "k" none).value = none := by
  decide

/-- C3, amended: provided both productions succeed with non-empty payloads
(so neither call prunes), upserting key `K` with `P1` and then with `P2`
yields the same reference from both calls, stages the second call as an
in-place update (not an insert: the node count is unchanged), and leaves
exactly one child of the anchor carrying the tag-key, whose params are `P2`. -/
theorem C3_amended_tagged_upsert (env : Env) (s : Store) (a : Nat)
    (q1 q2 : StructureComponentParams) (key : String) (tags1 tags2 : Option (List String))
    (app pl1 pl2 : Payload)
    (hWF : Store.WF s)
    (hanchor : payloadAt s a = some app)
    (hcount : (s.nodes.filter
      (fun n => n.parent == a && hasTag n.tags (componentKeyTag key))).length ≤ 1)
    (htr : ∀ n ∈ s.nodes, hasTag n.tags (componentKeyTag key) = true →
      n.transformer = Transformer.StructureComponent)
    (h1 : env.produce Transformer.StructureComponent (Params.structureComponent q1) app = Res.ok pl1)
    (h1ne : elementCountIsZero (some pl1) = false)
    (h2 : env.produce Transformer.StructureComponent (Params.structureComponent q2) app = Res.ok pl2)
    (h2ne : elementCountIsZero (some pl2) = false) :
    ∃ rf,
      (tryCreateComponent env s a q1 key tags1).value = some rf ∧
      (tryCreateComponent env (tryCreateComponent env s a q1 key tags1).store
        a q2 key tags2).value = some rf ∧
      (componentBuilder (tryCreateComponent env s a q1 key tags1).store a q2 key tags2).ops =
        [Op.updateOp rf (Params.structureComponent q2)] ∧
      (tryCreateComponent env (tryCreateComponent env s a q1 key tags1).store
        a q2 key tags2).store.nodes.length =
        (tryCreateComponent env s a q1 key tags1).store.nodes.length ∧
      ((tryCreateComponent env (tryCreateComponent env s a q1 key tags1).store
        a q2 key tags2).store.nodes.filter
        (fun n => n.parent == a && hasTag n.tags (componentKeyTag key))).length = 1 ∧
      (∀ n, (tryCreateComponent env (tryCreateComponent env s a q1 key tags1).store
          a q2 key tags2).store.resolve rf = some n →
        n.params = Params.structureComponent q2 ∧ n.parent = a ∧
        hasTag n.tags (componentKeyTag key) = true) := by
  obtain ⟨hnd, hrefs, hpars, hself⟩ := hWF
  obtain ⟨anc, hancres, hancpl, hancref, hancmem⟩ := resolve_of_payloadAt hanchor
  rcases hf : s.nodes.find? (fun n => n.parent == a && hasTag n.tags (componentKeyTag key))
    with - | c
  · -- first call inserts a fresh node, second call updates it in place
    have hr1 := tryCreateComponent_insert_ok env s a q1 key tags1 app pl1 hrefs hanchor hf h1 h1ne
    have hrn := find?_ref_fresh hrefs
    have hfind2 : (s.nodes ++ [mkComponentNode s a q1 key tags1 Lifecycle.ok (some pl1)]).find?
        (fun n => n.parent == a && hasTag n.tags (componentKeyTag key)) =
        some (mkComponentNode s a q1 key tags1 Lifecycle.ok (some pl1)) := by
      rw [find?_append_none _ _ _ hf]
      rw [List.find?_cons_of_pos _ (by simp [mkComponentNode, hasTag_allTags_keyTag])]
    have hnd1 : ((s.nodes ++ [mkComponentNode s a q1 key tags1 Lifecycle.ok (some pl1)]).map
        (fun n => n.ref)).Nodup := by
      rw [List.map_append, List.nodup_append]
      refine ⟨hnd, by simp, ?_⟩
      intro x hx hy
      simp only [List.map_cons, List.map_nil, List.mem_singleton, mkComponentNode] at hy
      rw [List.mem_map] at hx
      obtain ⟨n, hn, rfl⟩ := hx
      have := hrefs n hn
      omega
    have hpp2 : (List.find? (fun n => n.ref == a)
        (s.nodes ++ [mkComponentNode s a q1 key tags1 Lifecycle.ok (some pl1)])).bind
        (fun n => n.payload) = some app := by
      rw [find?_append_some _ _ _
        (show List.find? (fun n => n.ref == a) s.nodes = some anc from hancres)]
      exact hancpl
    have hprod2 : env.produce
        (mkComponentNode s a q1 key tags1 Lifecycle.ok (some pl1)).transformer
        (Params.structureComponent q2) app = Res.ok pl2 := h2
    have hr2 := tryCreateComponent_update_ok env
      { nodes := s.nodes ++ [mkComponentNode s a q1 key tags1 Lifecycle.ok (some pl1)],
        nextRef := s.nextRef + 1 } a q2 key tags2
      (mkComponentNode s a q1 key tags1 Lifecycle.ok (some pl1)) app pl2
      hnd1 hfind2 hpp2 hprod2 h2ne
    refine ⟨s.nextRef, ?_, ?_, ?_, ?_, ?_, ?_⟩
    · rw [hr1]
    · rw [hr1]
      rw [hr2]
      rfl
    · rcases componentBuilder_ops
        (tryCreateComponent env s a q1 key tags1).store a q2 key tags2 with ⟨hn2, -, -⟩ |
        ⟨c2, hc2, hops2, -⟩
      · rw [hr1] at hn2
        rw [hfind2] at hn2
        cases hn2
      · rw [hr1] at hc2
        rw [hfind2] at hc2
        injection hc2 with hc2
        rw [hops2, ← hc2]
        rfl
    · rw [hr1, hr2]
      dsimp only
      unfold replaceNode
      rw [List.length_map]
    · rw [hr1, hr2]
      dsimp only
      rw [filter_replaceNode_pred _ _ (updComponentNode q2 pl2)
        (fun n => n.parent == a && hasTag n.tags (componentKeyTag key)) (fun n => rfl)]
      rw [List.length_map, List.filter_append]
      have hfe : s.nodes.filter
          (fun n => n.parent == a && hasTag n.tags (componentKeyTag key)) = [] := by
        rw [List.filter_eq_nil_iff]
        intro n hn
        exact (List.find?_eq_none.mp hf) n hn
      rw [hfe]
      rw [List.filter_cons_of_pos (by simp [mkComponentNode, hasTag_allTags_keyTag])]
      rfl
    · intro n hn
      rw [hr1, hr2] at hn
      dsimp only at hn
      unfold Store.resolve at hn
      dsimp only at hn
      rw [resolve_replaceNode _ _ (updComponentNode q2 pl2) _ (fun n => rfl)] at hn
      rw [find?_append_none _ _ _ hrn] at hn
      rw [List.find?_cons_of_pos _ (by simp [mkComponentNode])] at hn
      simp only [Option.map_some'] at hn
      injection hn with hn
      subst hn
      refine ⟨?_, ?_, ?_⟩ <;>
        simp [mkComponentNode, updComponentNode, hasTag_allTags_keyTag]
  · -- both calls update the pre-existing tagged child in place
    have hmemc := List.mem_of_find?_eq_some hf
    have hpredc := List.find?_some hf
    rw [Bool.and_eq_true] at hpredc
    obtain ⟨hcp, hct⟩ := hpredc
    have hcpa : c.parent = a := by simpa using hcp
    have hctr : c.transformer = Transformer.StructureComponent := htr c hmemc hct
    have hnca : a ≠ c.ref := by
      have := hself c hmemc
      rw [hcpa] at this
      exact this
    have hpp1 : (s.resolve c.parent).bind (fun n => n.payload) = some app := by
      rw [hcpa]
      exact hanchor
    have hr1 := tryCreateComponent_update_ok env s a q1 key tags1 c app pl1 hnd hf hpp1
      (by rw [hctr]; exact h1) h1ne
    have hg1ref : ∀ n : Node, ((fun m => if m.ref == c.ref then updComponentNode q1 pl1 m else m) n).ref = n.ref := by
      intro n
      by_cases hh : n.ref = c.ref
      · simp [hh, updComponentNode]
      · simp [hh]
    have hfind2 : (replaceNode s.nodes c.ref (updComponentNode q1 pl1)).find?
        (fun n => n.parent == a && hasTag n.tags (componentKeyTag key)) =
        some (updComponentNode q1 pl1 c) := by
      unfold replaceNode
      rw [find?_map_pred (fun n => n.parent == a && hasTag n.tags (componentKeyTag key))
        (fun m => if m.ref == c.ref then updComponentNode q1 pl1 m else m) s.nodes
        (fun n => by
          by_cases hh : n.ref = c.ref
          · simp [hh, updComponentNode]
          · simp [hh])]
      rw [hf]
      simp
    have hnd1 : ((replaceNode s.nodes c.ref (updComponentNode q1 pl1)).map
        (fun n => n.ref)).Nodup := by
      rw [refs_replaceNode _ _ (updComponentNode q1 pl1) (fun n => rfl)]
      exact hnd
    have hpp2 : (List.find? (fun n => n.ref == (updComponentNode q1 pl1 c).parent)
        (replaceNode s.nodes c.ref (updComponentNode q1 pl1))).bind
        (fun n => n.payload) = some app := by
      have hup : (updComponentNode q1 pl1 c).parent = a := hcpa
      rw [hup]
      rw [resolve_replaceNode s.nodes c.ref (updComponentNode q1 pl1) a (fun n => rfl)]
      rw [show List.find? (fun n => n.ref == a) s.nodes = some anc from hancres]
      have hancne : (anc.ref == c.ref) = false := by
        rw [beq_eq_false_iff_ne, hancref]
        exact hnca
      dsimp only [Option.map]
      rw [hancne]
      exact hancpl
    have hprod2 : env.produce (updComponentNode q1 pl1 c).transformer
        (Params.structureComponent q2) app = Res.ok pl2 := by
      have : (updComponentNode q1 pl1 c).transformer = Transformer.StructureComponent := hctr
      rw [this]
      exact h2
    have hr2 := tryCreateComponent_update_ok env
      { nodes := replaceNode s.nodes c.ref (updComponentNode q1 pl1), nextRef := s.nextRef }
      a q2 key tags2 (updComponentNode q1 pl1 c) app pl2 hnd1 hfind2 hpp2 hprod2 h2ne
    have hfilc : s.nodes.filter
        (fun n => n.parent == a && hasTag n.tags (componentKeyTag key)) = [c] :=
      filter_eq_singleton_of_find? _ _ hf hcount
    refine ⟨c.ref, ?_, ?_, ?_, ?_, ?_, ?_⟩
    · rw [hr1]
    · rw [hr1]
      rw [hr2]
      rfl
    · rcases componentBuilder_ops
        (tryCreateComponent env s a q1 key tags1).store a q2 key tags2 with ⟨hn2, -, -⟩ |
        ⟨c2, hc2, hops2, -⟩
      · rw [hr1] at hn2
        rw [hfind2] at hn2
        cases hn2
      · rw [hr1] at hc2
        rw [hfind2] at hc2
        injection hc2 with hc2
        rw [hops2, ← hc2]
        rfl
    · rw [hr1, hr2]
      dsimp only
      unfold replaceNode
      rw [List.length_map, List.length_map]
    · rw [hr1, hr2]
      dsimp only
      rw [filter_replaceNode_pred _ _ (updComponentNode q2 pl2)
        (fun n => n.parent == a && hasTag n.tags (componentKeyTag key)) (fun n => rfl)]
      rw [List.length_map]
      rw [filter_replaceNode_pred _ _ (updComponentNode q1 pl1)
        (fun n => n.parent == a && hasTag n.tags (componentKeyTag key)) (fun n => rfl)]
      rw [List.length_map, hfilc]
      rfl
    · intro n hn
      rw [hr1, hr2] at hn
      dsimp only at hn
      unfold Store.resolve at hn
      dsimp only at hn
      rw [resolve_replaceNode _ _ (updComponentNode q2 pl2) _ (fun n => rfl)] at hn
      rw [resolve_replaceNode _ _ (updComponentNode q1 pl1) _ (fun n => rfl)] at hn
      rw [show List.find? (fun n => n.ref == c.ref) s.nodes = some c from
        resolve_of_mem_nodup hnd hmemc] at hn
      simp only [Option.map_some'] at hn
      injection hn with hn
      subst hn
      refine ⟨?_, ?_, ?_⟩ <;>
        simp [updComponentNode, hcpa, hct]

theorem C3_witness :
    ∃ rf,
      (tryCreateComponent envA storeStruct 1 qWater "k" none).value = some rf ∧
      (tryCreateComponent envA (tryCreateComponent envA storeStruct 1 qWater "k" none).store
        1 qLigand "k" none).value = some rf ∧
      (componentBuilder (tryCreateComponent envA storeStruct 1 qWater "k" none).store
        1 qLigand "k" none).ops = [Op.updateOp rf (Params.structureComponent qLigand)] ∧
      (tryCreateComponent envA (tryCreateComponent envA storeStruct 1 qWater "k" none).store
        1 qLigand "k" none).store.nodes.length =
        (tryCreateComponent envA storeStruct 1 qWater "k" none).store.nodes.length ∧
      ((tryCreateComponent envA (tryCreateComponent envA storeStruct 1 qWater "k" none).store
        1 qLigand "k" none).store.nodes.filter
        (fun n => n.parent == 1 && hasTag n.tags (componentKeyTag "k"))).length = 1 ∧
      (∀ n, (tryCreateComponent envA (tryCreateComponent envA storeStruct 1 qWater "k" none).store
          1 qLigand "k" none).store.resolve rf = some n →
        n.params = Params.structureComponent qLigand ∧ n.parent = 1 ∧
        hasTag n.tags (componentKeyTag "k") = true) :=
  C3_amended_tagged_upsert envA storeStruct 1 qWater qLigand "k" none none
    (Payload.molStructure 5) (Payload.molStructure 3) (Payload.molStructure 3)
    (by unfold Store.WF; decide) (by rfl) (by decide) (by decide)
    (by rfl) (by rfl) (by rfl) (by rfl)

theorem commitOps_pair (env : Env) (s : Store) (op1 op2 : Op) :
    commitOps env s [op1, op2] =
      ((applyOne env (applyOne env s op1).1 op2).1,
       [(applyOne env s op1).2, (applyOne env (applyOne env s op1).1 op2).2]) := rfl

/-- A successful blob-pipeline parse returns the `TrajectoryFromBlob` node's
selector, and the node it denotes holds a trajectory payload (given the
transformer's interface type). -/
theorem parseTrajectoryBlob_ok_shape (env : Env) (s : Store) (data : Nat) (p : Params) (r : Nat)
    (hrefs : ∀ n ∈ s.nodes, n.ref < s.nextRef)
    (htyped : ProduceTrajectoryTyped env)
    (hv : (parseTrajectoryBlob env s data p).value = Res.ok r) :
    r = s.nextRef + 1 ∧ TrajectoryShapedAt (parseTrajectoryBlob env s data p).store r := by
  have hopseq : ((((Store.build s).to data).apply Transformer.ParseBlob p [] true).apply
      Transformer.TrajectoryFromBlob Params.undef [] false).ops =
      [Op.applyOp data s.nextRef Transformer.ParseBlob p [] true,
       Op.applyOp s.nextRef (s.nextRef + 1) Transformer.TrajectoryFromBlob Params.undef [] false] := rfl
  by_cases herr : (updateDataState env s ((((Store.build s).to data).apply Transformer.ParseBlob
      p [] true).apply Transformer.TrajectoryFromBlob Params.undef [] false) true).errored = true
  · exfalso
    unfold parseTrajectoryBlob at hv
    dsimp only at hv
    rw [herr] at hv
    cases hv
  · rw [Bool.not_eq_true] at herr
    have hval : (parseTrajectoryBlob env s data p).value = Res.ok (s.nextRef + 1) := by
      unfold parseTrajectoryBlob
      dsimp only
      rw [herr]
      rfl
    have hr : r = s.nextRef + 1 := by
      rw [hval] at hv
      injection hv with hv
      exact hv.symm
    refine ⟨hr, ?_⟩
    subst hr
    have hfail : ((commitOps env s
        [Op.applyOp data s.nextRef Transformer.ParseBlob p [] true,
         Op.applyOp s.nextRef (s.nextRef + 1) Transformer.TrajectoryFromBlob Params.undef []
           false]).2.any (fun sel => !sel.isOk)) = false := by
      unfold updateDataState at herr
      dsimp only at herr
      rw [hopseq] at herr
      by_cases hff : ((commitOps env s
          [Op.applyOp data s.nextRef Transformer.ParseBlob p [] true,
           Op.applyOp s.nextRef (s.nextRef + 1) Transformer.TrajectoryFromBlob Params.undef []
             false]).2.any (fun sel => !sel.isOk)) = true
      · rw [hff] at herr
        simp at herr
      · rw [Bool.not_eq_true] at hff
        exact hff
    have hstore : (parseTrajectoryBlob env s data p).store =
        (commitOps env s [Op.applyOp data s.nextRef Transformer.ParseBlob p [] true,
          Op.applyOp s.nextRef (s.nextRef + 1) Transformer.TrajectoryFromBlob Params.undef []
            false]).1 := by
      unfold parseTrajectoryBlob updateDataState
      dsimp only
      rw [hopseq, hfail]
      rfl
    rcases hpp1 : (s.resolve data).bind (fun n => n.payload) with - | dp
    · exfalso
      have h1 := applyOne_applyOp_err env s data s.nextRef Transformer.ParseBlob p [] true
        (fun app happ => by rw [hpp1] at happ; cases happ)
      rw [commitOps_pair, h1] at hfail
      simp [Res.isOk] at hfail
    · rcases hpr1 : env.produce Transformer.ParseBlob p dp with pb | e
      swap
      · exfalso
        have h1 := applyOne_applyOp_err env s data s.nextRef Transformer.ParseBlob p [] true
          (fun app happ => by
            rw [hpp1] at happ
            injection happ with happ
            subst happ
            rw [hpr1]
            rfl)
        rw [commitOps_pair, h1] at hfail
        simp [Res.isOk] at hfail
      · have h1 := applyOne_applyOp_ok env s data s.nextRef Transformer.ParseBlob p [] true
          dp pb hpp1 hpr1
        have hpp2 : (List.find? (fun n => n.ref == s.nextRef)
            (s.nodes ++
              [{ ref := s.nextRef, parent := data, transformer := Transformer.ParseBlob,
                 params := p, tags := [], lifecycle := Lifecycle.ok, payload := some pb,
                 isGhost := true }])).bind (fun n => n.payload) = some pb := by
          rw [find?_append_none _ _ _ (find?_ref_fresh hrefs)]
          rw [List.find?_cons_of_pos _ (by simp)]
          rfl
        rcases hpr2 : env.produce Transformer.TrajectoryFromBlob Params.undef pb with tp | e
        swap
        · exfalso
          have h2 := applyOne_applyOp_err env
            { nodes := s.nodes ++
                [{ ref := s.nextRef, parent := data, transformer := Transformer.ParseBlob,
                   params := p, tags := [], lifecycle := Lifecycle.ok, payload := some pb,
                   isGhost := true }],
              nextRef := max s.nextRef (s.nextRef + 1) } s.nextRef (s.nextRef + 1)
            Transformer.TrajectoryFromBlob Params.undef [] false
            (fun app happ => by
              unfold Store.resolve at happ
              dsimp only at happ
              rw [hpp2] at happ
              injection happ with happ
              subst happ
              rw [hpr2]
              rfl)
          rw [commitOps_pair, h1, h2] at hfail
          simp [Res.isOk] at hfail
        · have htp : tp = Payload.trajectory := htyped _ _ _ hpr2
          have h2 := applyOne_applyOp_ok env
            { nodes := s.nodes ++
                [{ ref := s.nextRef, parent := data, transformer := Transformer.ParseBlob,
                   params := p, tags := [], lifecycle := Lifecycle.ok, payload := some pb,
                   isGhost := true }],
              nextRef := max s.nextRef (s.nextRef + 1) } s.nextRef (s.nextRef + 1)
            Transformer.TrajectoryFromBlob Params.undef [] false pb tp
            (show (List.find? (fun n => n.ref == s.nextRef)
                (s.nodes ++
                  [{ ref := s.nextRef, parent := data, transformer := Transformer.ParseBlob,
                     params := p, tags := [], lifecycle := Lifecycle.ok, payload := some pb,
                     isGhost := true }])).bind (fun n => n.payload) = some pb from hpp2) hpr2
          rw [hstore, commitOps_pair, h1, h2]
          intro pl hpl
          unfold payloadAt Store.resolve at hpl
          dsimp only at hpl
          rw [List.find?_append, List.find?_append] at hpl
          have hx1 : List.find? (fun n => n.ref == s.nextRef + 1) s.nodes = none := by
            rw [List.find?_eq_none]
            intro n hn
            have := hrefs n hn
            simp only [beq_iff_eq]
            omega
          have hx2 : List.find? (fun (n : Node) => n.ref == s.nextRef + 1)
              [{ ref := s.nextRef, parent := data, transformer := Transformer.ParseBlob,
                 params := p, tags := [], lifecycle := Lifecycle.ok, payload := some pb,
                 isGhost := true }] = none := by
            rw [List.find?_cons_of_neg, List.find?_nil]
            simp
          rw [hx1, hx2] at hpl
          rw [List.find?_cons_of_pos _ (by simp)] at hpl
          dsimp only [Option.or, Option.bind] at hpl
          injection hpl with hpl
          rw [← hpl, htp]

/-- C5: `parseTrajectory` dispatches over the closed two-variant input set by
inspecting the resolved node's data kind: an unresolved reference aborts
before any dispatch; a blob cell runs the two-stage pipeline, staging
`ParseBlob` followed by `TrajectoryFromBlob` in one commit, whose successful
result is the trajectory node's selector; any other cell runs the direct
single-item parse, whose successful result is likewise a trajectory-shaped
selector whenever the format's provider honors its interface type — so both
branches terminate in the same node shape. -/
theorem C5_parseTrajectory_dispatch (env : Env) (s : Store) (data : Nat)
    (p : Params) (f : TrajectoryFormatArg)
    (hrefs : ∀ n ∈ s.nodes, n.ref < s.nextRef)
    (htyped : ProduceTrajectoryTyped env) :
    (resolveAndCheck s data = none →
      parseTrajectory env s data (ParseTrajectoryArg.blobParamsArg p) =
        { store := s, events := [], value := Res.err "Invalid data cell." }) ∧
    (∀ cell, resolveAndCheck s data = some cell → isBlobPayload cell.payload = true →
      parseTrajectory env s data (ParseTrajectoryArg.blobParamsArg p) =
        parseTrajectoryBlob env s data p ∧
      (parseTrajectoryBlob env s data p).events =
        [Event.commitEv true [Op.applyOp data s.nextRef Transformer.ParseBlob p [] true,
          Op.applyOp s.nextRef (s.nextRef + 1) Transformer.TrajectoryFromBlob Params.undef []
            false]] ∧
      (∀ r, (parseTrajectoryBlob env s data p).value = Res.ok r →
        r = s.nextRef + 1 ∧ TrajectoryShapedAt (parseTrajectoryBlob env s data p).store r)) ∧
    (∀ cell, resolveAndCheck s data = some cell → isBlobPayload cell.payload = false →
      parseTrajectory env s data (ParseTrajectoryArg.formatArg f) =
        parseTrajectoryData env s data f) ∧
    ((∀ prov, formatProviderOf env f = some prov → ProviderTrajectoryTyped prov) →
      ∀ r, (parseTrajectoryData env s data f).value = Res.ok r →
        TrajectoryShapedAt (parseTrajectoryData env s data f).store r) := by
  refine ⟨?_, ?_, ?_, ?_⟩
  · intro h
    unfold parseTrajectory
    rw [h]
  · intro cell hc hblob
    refine ⟨?_, rfl, ?_⟩
    · unfold parseTrajectory
      rw [hc]
      dsimp only
      rw [hblob]
      rfl
    · intro r hv
      exact parseTrajectoryBlob_ok_shape env s data p r hrefs htyped hv
  · intro cell hc hnb
    unfold parseTrajectory
    rw [hc]
    dsimp only
    rw [hnb]
    rfl
  · intro hprov r hv
    rcases f with name | prov
    · have hx : parseTrajectoryData env s data (TrajectoryFormatArg.byName name) =
          match env.trajectoryFormatByName name with
          | none => { store := s, events := [],
                      value := Res.err (name ++ " is not a supported data format.") }
          | some pp => pp.parse s data := rfl
      rcases hlook : env.trajectoryFormatByName name with - | pr
      · rw [hlook] at hx
        rw [hx] at hv
        cases hv
      · rw [hlook] at hx
        rw [hx] at hv ⊢
        exact hprov pr (show env.trajectoryFormatByName name = some pr from hlook) s data r hv
    · exact hprov prov rfl s data r hv

theorem C5_witness :
    parseTrajectory envA storeBlob 1 (ParseTrajectoryArg.blobParamsArg (Params.blobParams 3)) =
      parseTrajectoryBlob envA storeBlob 1 (Params.blobParams 3) ∧
    TrajectoryShapedAt (parseTrajectoryBlob envA storeBlob 1 (Params.blobParams 3)).store 3 := by
  have h := C5_parseTrajectory_dispatch envA storeBlob 1 (Params.blobParams 3)
    (TrajectoryFormatArg.byName "pdb") (by decide)
    (fun pr0 pl0 p0 hh => by injection hh with hh; exact hh.symm)
  have h2 := h.2.1
    { ref := 1, parent := 0, transformer := Transformer.ParseBlob, params := Params.undef,
      tags := [], lifecycle := Lifecycle.ok, payload := some Payload.blob, isGhost := false }
    (by rfl) (by rfl)
  exact ⟨h2.1, (h2.2.2 3 (by rfl)).2⟩

end Molstar
